import Mathlib

/-!
Verification of the kit kernel (devyn/kit) core against its specification.

Each subsystem that the claims touch is shallowly embedded from the C sources:

  * src/kernel/archive.c    — archive entry checksum verification
  * src/kernel/scheduler.c  — run queue, tick, sleep, wake
  * src/kernel/memory.c     — bump heap allocator and the free-region tree
  * src/kernel/rbtree.c     — the generic red-black tree (pointer heap model)
  * src/kernel/paging.c     — four-level page tables, map/resolve/create/destroy
  * src/kernel/process.c    — process_adjust_heap

Machine integers are modelled as `Nat` with explicit reduction modulo `2 ^ 64`
where uint64 overflow is possible.  Pointer-based structures (the intrusive
red-black tree) are modelled as association lists from node addresses to node
records; a dereference of an absent address (undefined behaviour in C) reads a
default record.  Loops whose termination depends on heap well-formedness are
given fuel derived from the heap size; fuel exhaustion corresponds to a C
execution that never terminates and is surfaced as `Option.none` where the
surrounding function must report a result.
-/

set_option autoImplicit false

namespace Kit

/-- Addition of two uint64 values (wraps modulo 2^64). -/
def u64add (a b : Nat) : Nat := (a + b) % 2 ^ 64

/-- Subtraction of two uint64 values (wraps modulo 2^64). -/
def u64sub (a b : Nat) : Nat := (a + (2 ^ 64 - b % 2 ^ 64)) % 2 ^ 64

/-- Addition of an int64 to a uint64, as in `process->heap_length += amount`
(wraps modulo 2^64). -/
def u64addInt (a : Nat) (b : Int) : Nat := (((a : Int) + b).emod (2 ^ 64)).toNat

theorem u64sub_add_cancel {a : Nat} (b : Nat) (h : a < 2 ^ 64) :
    u64sub (u64add a b) b = a := by
  unfold u64add u64sub
  omega

theorem u64add_of_lt {a b : Nat} (h : a + b < 2 ^ 64) : u64add a b = a + b := by
  unfold u64add
  omega

theorem u64sub_of_le {a b : Nat} (hb : b ≤ a) (h : a < 2 ^ 64) :
    u64sub a b = a - b := by
  unfold u64sub
  omega

/-! ## Archive checksum (src/kernel/archive.c)

`archive_verify` recomputes the checksum of an entry body and compares it with
the `checksum` field of the entry header.  The body is modelled as a function
from byte index to byte value (the C code reads `buffer[i]` for
`i < entry->length`). -/

/-- Archive entry header, from src/kernel/include/archive.h
(`offset`,`length`,`checksum`,`name_length`; the name bytes are irrelevant to
verification and are not modelled). -/
structure ArchiveEntry where
  offset : Nat
  length : Nat
  checksum : Nat
  name_length : Nat
deriving DecidableEq, Repr

/-- Loop of `archive_verify` (src/kernel/archive.c:98-106): iterates `i` over
the body, accumulating bytes into `word` by `word |= buffer[i] << (count*8)`
and folding `word` into `checksum` each time `count` reaches 8.  Structural
recursion on the number of remaining bytes. -/
def archive_verify_loop (buffer : Nat → Nat) (i remaining word checksum count : Nat) :
    Nat :=
  match remaining with
  | 0 => checksum
  | r + 1 =>
    let word := word ||| (buffer i <<< (count * 8))
    if count + 1 = 8 then
      archive_verify_loop buffer (i + 1) r 0 (checksum ^^^ word) 0
    else
      archive_verify_loop buffer (i + 1) r word checksum (count + 1)

/-- Checksum computed by `archive_verify` over the first `length` bytes of the
body (src/kernel/archive.c:92-106).  Note that after the loop the residual
`word` (holding a trailing group of fewer than 8 bytes) is discarded: the
XOR into `checksum` happens only when `count` reaches 8. -/
def archive_computed_checksum (length : Nat) (buffer : Nat → Nat) : Nat :=
  archive_verify_loop buffer 0 length 0 0 0

/-- `archive_verify(entry, buffer)` (src/kernel/archive.c:92-114): true iff the
stored checksum equals the recomputed one. -/
def archive_verify (entry : ArchiveEntry) (buffer : Nat → Nat) : Bool :=
  entry.checksum == archive_computed_checksum entry.length buffer

/-- One little-endian word assembled from `nbytes` bytes of the body starting
at `base`, exactly as the verify loop assembles it (`or` of bytes shifted by
8 bits per position); fewer than 8 bytes means the high positions stay zero. -/
def archive_word (buffer : Nat → Nat) (base : Nat) : Nat → Nat
  | 0 => 0
  | n + 1 => archive_word buffer base n ||| (buffer (base + n) <<< (n * 8))

/-- Checksum as the specification describes it: XOR of successive little-endian
8-byte words of the first `length` bytes, where a trailing group of fewer than
8 bytes participates as a partial word padded with zeros.  `nwords` counts the
words still to fold, starting from word index `k`. -/
def archive_spec_checksum_from (buffer : Nat → Nat) (length k : Nat) : Nat → Nat
  | 0 => 0
  | n + 1 =>
    archive_word buffer (k * 8) (min 8 (length - k * 8)) ^^^
      archive_spec_checksum_from buffer length (k + 1) n

/-- Checksum formula written from the specification sentence (the trailing
partial word participates): XOR over all `⌈length/8⌉` words. -/
def archive_spec_checksum (length : Nat) (buffer : Nat → Nat) : Nat :=
  archive_spec_checksum_from buffer length 0 ((length + 7) / 8)

/-- Checksum formula with the trailing partial word discarded, XOR over the
`⌊length/8⌋` complete words only — this is what the code computes. -/
def archive_full_words_checksum (length : Nat) (buffer : Nat → Nat) : Nat :=
  archive_spec_checksum_from buffer (length / 8 * 8) 0 (length / 8)

/-- XOR of `m` consecutive full 8-byte words starting at byte offset `i`;
helper for relating the verify loop to the word-level formulas. -/
def xor_words (buffer : Nat → Nat) (i : Nat) : Nat → Nat
  | 0 => 0
  | m + 1 => archive_word buffer i 8 ^^^ xor_words buffer (i + 8) m

theorem archive_verify_loop_tail (buffer : Nat → Nat) :
    ∀ (n : Nat) (i c w cs : Nat), n + c < 8 →
      archive_verify_loop buffer i n w cs c = cs := by
  intro n
  induction n with
  | zero => intro i c w cs _; rfl
  | succ n ih =>
    intro i c w cs h
    have hc : ¬ (c + 1 = 8) := by omega
    simp only [archive_verify_loop, hc, if_false]
    exact ih (i + 1) (c + 1) _ cs (by omega)

theorem archive_verify_loop_word (buffer : Nat → Nat) (i s cs : Nat) :
    archive_verify_loop buffer i (s + 8) 0 cs 0 =
      archive_verify_loop buffer (i + 8) s 0 (cs ^^^ archive_word buffer i 8) 0 := by
  simp only [archive_verify_loop, archive_word]
  norm_num [Nat.add_assoc]

theorem archive_verify_loop_words (buffer : Nat → Nat) :
    ∀ (m t i cs : Nat), t < 8 →
      archive_verify_loop buffer i (t + 8 * m) 0 cs 0 = cs ^^^ xor_words buffer i m := by
  intro m
  induction m with
  | zero =>
    intro t i cs h
    rw [Nat.mul_zero, Nat.add_zero, archive_verify_loop_tail buffer t i 0 0 cs (by omega)]
    simp [xor_words]
  | succ m ih =>
    intro t i cs h
    have : t + 8 * (m + 1) = (t + 8 * m) + 8 := by ring
    rw [this, archive_verify_loop_word, ih t (i + 8) _ h]
    simp [xor_words, Nat.xor_assoc]

theorem archive_computed_checksum_eq_xor_words (length : Nat) (buffer : Nat → Nat) :
    archive_computed_checksum length buffer = xor_words buffer 0 (length / 8) := by
  unfold archive_computed_checksum
  conv_lhs => rw [show length = length % 8 + 8 * (length / 8) by omega]
  rw [archive_verify_loop_words buffer (length / 8) (length % 8) 0 0
    (Nat.mod_lt _ (by norm_num))]
  simp

theorem archive_spec_checksum_from_full (buffer : Nat → Nat) :
    ∀ (n k L : Nat), (k + n) * 8 ≤ L →
      archive_spec_checksum_from buffer L k n = xor_words buffer (k * 8) n := by
  intro n
  induction n with
  | zero => intro k L _; rfl
  | succ n ih =>
    intro k L h
    have hmin : min 8 (L - k * 8) = 8 := by omega
    simp only [archive_spec_checksum_from, xor_words, hmin]
    rw [ih (k + 1) L (by omega)]
    ring_nf

theorem archive_full_words_checksum_eq (length : Nat) (buffer : Nat → Nat) :
    archive_full_words_checksum length buffer = xor_words buffer 0 (length / 8) := by
  unfold archive_full_words_checksum
  rw [archive_spec_checksum_from_full buffer (length / 8) 0 (length / 8 * 8) (by omega)]

/-- Claim C7 (counterexample): the claim states that `archive_verify` returns
true iff the stored checksum equals the XOR of little-endian 8-byte words in
which a trailing group of fewer than 8 bytes participates as a zero-padded
partial word.  For the entry with `length = 1`, `checksum = 0` and body byte
`1`, the code returns true (it discards the trailing partial word) while the
claimed formula yields 1 ≠ 0, so the equivalence fails. -/
theorem C7_counterexample :
    ¬ (archive_verify ⟨0, 1, 0, 0⟩ (fun _ => 1) = true ↔
        (0 : Nat) = archive_spec_checksum 1 (fun _ => 1)) := by
  decide

/-- Claim C7 (amended): `archive_verify(entry, buffer)` returns true iff
`entry->checksum` equals the XOR of the successive complete little-endian
8-byte words of the body's first `length` bytes; a trailing group of fewer
than 8 bytes is accumulated but discarded without being XORed into the
checksum, so trailing bytes do not affect the result. -/
theorem C7_amended (entry : ArchiveEntry) (buffer : Nat → Nat) :
    archive_verify entry buffer = true ↔
      entry.checksum = archive_full_words_checksum entry.length buffer := by
  unfold archive_verify
  rw [archive_computed_checksum_eq_xor_words, archive_full_words_checksum_eq]
  exact beq_iff_eq ..

/-! ## Scheduler (src/kernel/scheduler.c)

The scheduler state comprises the per-process `state` field
(src/kernel/include/process.h `process_state_t`), the per-process
`sched.waiting` flag, the intrusive FIFO run queue (`run_queue_front` /
`run_queue_back` threaded through `sched.run_queue_next`, modelled as a list
with the front at the head), and `process_current`.  Processes are identified
by their address; `process_switch` is modelled by its effect on
`process_current` (the pageset/stack effects are outside the scheduler state).

`scheduler_tick`'s idle loop (`sti; hlt; cli` while the queue is empty and the
current process is not running) re-enables interrupts, so at the step
granularity of this model a blocked tick is a stutter: the state is unchanged,
and the wake-up that arrives during `hlt` is a separate step of the relation;
`sched.waiting` is therefore false at every step boundary (it is set and
cleared strictly inside the halt window). -/

/-- Process states, src/kernel/include/process.h. -/
inductive PState where
  | loading
  | running
  | sleeping
  | dead
deriving DecidableEq, Repr

/-- Scheduler-visible state. -/
structure Sched where
  pstate : Nat → PState
  waiting : Nat → Bool
  queue : List Nat
  current : Option Nat

/-- `scheduler_enqueue_run` (src/kernel/scheduler.c:73-85): append at the back
of the FIFO. -/
def scheduler_enqueue_run (s : Sched) (p : Nat) : Sched :=
  { s with queue := s.queue ++ [p] }

/-- `scheduler_dequeue_run` (src/kernel/scheduler.c:87-108): remove and return
the front of the FIFO, or return null when empty. -/
def scheduler_dequeue_run (s : Sched) : Option Nat × Sched :=
  match s.queue with
  | [] => (none, s)
  | p :: rest => (some p, { s with queue := rest })

/-- `scheduler_tick` (src/kernel/scheduler.c:22-71).  With a current process:
return immediately if it is flagged waiting; dequeue — an empty queue either
returns (current still running) or halts until an interrupt (modelled as a
stutter, see the section comment); if the dequeued process differs from the
current one, enqueue the current process if it is still running and switch.
Without a current process, dequeue and switch (the `DEBUG_ASSERT` that the
queue is non-empty is a fatal assertion; the empty case is modelled as a
stutter). -/
def scheduler_tick (s : Sched) : Sched :=
  match s.current with
  | some c =>
    if s.waiting c then s
    else
      match s.queue with
      | [] => s
      | next :: rest =>
        if next = c then { s with queue := rest }
        else
          { s with
            queue := rest ++ (if s.pstate c = .running then [c] else [])
            current := some next }
  | none =>
    match s.queue with
    | [] => s
    | next :: rest => { s with queue := rest, current := some next }

/-- `scheduler_sleep` (src/kernel/scheduler.c:110-117): assert a running
current process, mark it sleeping and tick.  The asserted preconditions are
hypotheses of the theorems; on states violating them the assertion is fatal
and the function is modelled as a stutter. -/
def scheduler_sleep (s : Sched) : Sched :=
  match s.current with
  | some c =>
    if s.pstate c = .running then
      scheduler_tick
        { s with pstate := fun p => if p = c then .sleeping else s.pstate p }
    else s
  | none => s

/-- `scheduler_wake` (src/kernel/scheduler.c:119-132): if the target is
sleeping, mark it running, enqueue it at the back and return true; otherwise
return false. -/
def scheduler_wake (s : Sched) (p : Nat) : Bool × Sched :=
  if s.pstate p = .sleeping then
    (true,
      scheduler_enqueue_run
        { s with pstate := fun q => if q = p then .running else s.pstate q } p)
  else (false, s)

/-- Scheduler boot state after two processes (ids 1 and 2) have been created
and `process_run` has set each Running (src/kernel/process.c:541-548 flips
Loading to Running immediately before calling `scheduler_enqueue_run`); the
run queue is still empty and no process is current. -/
def sched_boot : Sched :=
  { pstate := fun p => if p = 1 ∨ p = 2 then .running else .loading
    waiting := fun _ => false
    queue := []
    current := none }

/-- The scheduler state after the step sequence
`enqueue_run 2; enqueue_run 1; tick; sleep; sleep; wake 2; wake 1; sleep`
from `sched_boot`: both processes are enqueued and process 2 is scheduled;
process 2 sleeps (switching to process 1); process 1 sleeps with an empty
queue (the idle halt); both are woken — waking current process 1 appends it
behind process 2 while it is still current; process 1 then sleeps again. -/
def sched_violation_state : Sched :=
  scheduler_sleep
    ((scheduler_wake
      ((scheduler_wake
        (scheduler_sleep
          (scheduler_sleep
            (scheduler_tick
              (scheduler_enqueue_run (scheduler_enqueue_run sched_boot 2) 1))))
        2).2)
      1).2)

/-- Claim C8 (failing trace): after the scheduler step sequence
`enqueue_run 2; enqueue_run 1; tick; sleep; sleep; wake 2; wake 1; sleep`
from boot, process 1 has just entered Sleeping via `scheduler_sleep`, yet the
very next run-queue dequeue returns process 1 even though no `scheduler_wake`
was called on it after that sleep — contradicting the claim that a sleeping
process is never dequeued until woken.  The stale queue entry comes from
waking process 1 while it was the current process halted inside its own
sleep; its subsequent sleep leaves the entry behind (in the running kernel
the re-enqueue of a process that is already the queue back additionally
corrupts the intrusive list into a self-loop). -/
theorem C8_sleep_dequeue_violation :
    sched_violation_state.pstate 1 = .sleeping ∧
      (scheduler_dequeue_run sched_violation_state).1 = some 1 := by
  decide

/-! ## Red-black tree (src/kernel/rbtree.c)

The tree is intrusive: nodes live at fixed addresses and carry
`color/parent/left/right` pointers plus, for the frame-allocator consumer, the
`physical_base`/`pages` payload of `memory_free_region_node_t`
(src/kernel/memory.c:42-47).  The node heap is an association list from node
address to node record; a null pointer is `none`.  Dereferencing an address
that is not in the heap (undefined behaviour in C) reads a default record.
Every C pointer write becomes a field update of the addressed record, in
statement order, re-reading the heap for each C pointer read so that aliasing
behaves exactly as in C. -/

/-- Node colors; `RBTREE_COLOR_BLACK = 0` comes first so that a zeroed node is
black, as after `memory_set(node, 0, ...)`. -/
inductive Color where
  | black
  | red
deriving DecidableEq, Repr

/-- An rbtree node together with the frame-allocator payload
(src/kernel/include/rbtree.h, src/kernel/memory.c:42-47). -/
structure RBNode where
  color : Color
  parent : Option Nat
  left : Option Nat
  right : Option Nat
  physical_base : Nat
  pages : Nat
deriving DecidableEq, Repr

instance : Inhabited RBNode := ⟨⟨.black, none, none, none, 0, 0⟩⟩

/-- The node heap: node address to node record. -/
abbrev NodeHeap := List (Nat × RBNode)

/-- Read the node at address `i` (a missing address reads as the default
record — in C this would be a wild dereference). -/
def hget (h : NodeHeap) (i : Nat) : RBNode :=
  ((h.find? (fun e => e.1 == i)).map (·.2)).getD default

/-- Write the node at address `i`. -/
def hset (h : NodeHeap) (i : Nat) (n : RBNode) : NodeHeap :=
  (i, n) :: h.filter (fun e => e.1 != i)

theorem find?_filter_ne (i j : Nat) (hji : j ≠ i) (h : NodeHeap) :
    List.find? (fun e => e.1 == j) (h.filter (fun e => e.1 != i)) =
      List.find? (fun e => e.1 == j) h := by
  induction h with
  | nil => rfl
  | cons e t ih =>
    by_cases hei : e.1 = i
    · have h1 : (e.1 != i) = false := by simp [hei]
      have h2 : (e.1 == j) = false := by simp [hei, Ne.symm hji]
      rw [List.filter_cons, h1, if_neg (by simp), List.find?_cons, h2, ih]
    · have h1 : (e.1 != i) = true := by simp [hei]
      rw [List.filter_cons, h1, if_pos rfl, List.find?_cons, List.find?_cons]
      by_cases hej : e.1 = j
      · have h2 : (e.1 == j) = true := by simp [hej]
        rw [h2]
      · have h2 : (e.1 == j) = false := by simp [hej]
        rw [h2, ih]

theorem hget_hset (h : NodeHeap) (i : Nat) (n : RBNode) (j : Nat) :
    hget (hset h i n) j = if j = i then n else hget h j := by
  unfold hget hset
  by_cases hji : j = i
  · subst hji
    simp [List.find?]
  · have h1 : (i == j) = false := by simp [Ne.symm hji]
    rw [List.find?_cons, h1, if_neg hji, find?_filter_ne i j hji]

/-- A tree: the `rbtree_t` root together with the node heap it points into. -/
structure RBTreeSt where
  root : Option Nat
  heap : NodeHeap

/-- Read a node of the tree's heap. -/
def RBTreeSt.node (s : RBTreeSt) (i : Nat) : RBNode := hget s.heap i

/-- Write the color field of node `i` (one C statement `i->color = c`). -/
def setColor (s : RBTreeSt) (i : Nat) (c : Color) : RBTreeSt :=
  { s with heap := hset s.heap i { s.node i with color := c } }

/-- Write the parent pointer of node `i`. -/
def setParent (s : RBTreeSt) (i : Nat) (p : Option Nat) : RBTreeSt :=
  { s with heap := hset s.heap i { s.node i with parent := p } }

/-- Write the left child pointer of node `i`. -/
def setLeft (s : RBTreeSt) (i : Nat) (l : Option Nat) : RBTreeSt :=
  { s with heap := hset s.heap i { s.node i with left := l } }

/-- Write the right child pointer of node `i`. -/
def setRight (s : RBTreeSt) (i : Nat) (r : Option Nat) : RBTreeSt :=
  { s with heap := hset s.heap i { s.node i with right := r } }

/-- Write the tree root. -/
def setRoot (s : RBTreeSt) (r : Option Nat) : RBTreeSt :=
  { s with root := r }

/-- `rbtree_node_grandparent` (src/kernel/rbtree.c:23-29). -/
def rbtree_node_grandparent (s : RBTreeSt) (node : Nat) : Option Nat :=
  match (s.node node).parent with
  | none => none
  | some p => (s.node p).parent

/-- `rbtree_node_uncle` (src/kernel/rbtree.c:31-46). -/
def rbtree_node_uncle (s : RBTreeSt) (node : Nat) : Option Nat :=
  match rbtree_node_grandparent s node with
  | none => none
  | some g =>
    if (s.node node).parent = (s.node g).left then (s.node g).right
    else (s.node g).left

/-- `rbtree_node_sibling` (src/kernel/rbtree.c:48-61). -/
def rbtree_node_sibling (s : RBTreeSt) (node : Nat) : Option Nat :=
  match (s.node node).parent with
  | none => none
  | some p =>
    if (s.node p).left = some node then (s.node p).right
    else (s.node p).left

/-- `rbtree_replace_node` (src/kernel/rbtree.c:67-101): detach `nw` from its
parent, give it `old`'s parent, and point `old`'s parent (or the root) at
`nw`.  It does not write to `old`, nor transfer `old`'s children or color. -/
def rbtree_replace_node (s : RBTreeSt) (nw : Option Nat) (old : Nat) : RBTreeSt :=
  let s :=
    match nw with
    | none => s
    | some n =>
      let s :=
        match (s.node n).parent with
        | none => s
        | some np =>
          if (s.node np).left = some n then setLeft s np none
          else setRight s np none
      setParent s n (s.node old).parent
  match (s.node old).parent with
  | none => setRoot s nw
  | some op =>
    if (s.node op).left = some old then setLeft s op nw
    else setRight s op nw

/-- `rbtree_rotate_left` (src/kernel/rbtree.c:103-124), statement by statement
with re-reads.  The `DEBUG_ASSERT(node->right != NULL)` is a fatal assertion
(assertion semantics are modelled from the spec, §7: fatal); the violating
case is modelled as a no-op and is unreachable from the rotation call sites on
well-formed trees. -/
def rbtree_rotate_left (s : RBTreeSt) (node : Nat) : RBTreeSt :=
  match (s.node node).right with
  | none => s
  | some y =>
    let saved_right_left := (s.node y).left
    let s := setLeft s y (some node)
    let s := setParent s y (s.node node).parent
    let s :=
      match (s.node node).parent with
      | none => setRoot s (s.node node).right
      | some np =>
        if (s.node np).left = some node then setLeft s np (s.node node).right
        else setRight s np (s.node node).right
    let s := setParent s node (s.node node).right
    let s := setRight s node saved_right_left
    match saved_right_left with
    | none => s
    | some sv => setParent s sv (some node)

/-- `rbtree_rotate_right` (src/kernel/rbtree.c:126-147), mirror image. -/
def rbtree_rotate_right (s : RBTreeSt) (node : Nat) : RBTreeSt :=
  match (s.node node).left with
  | none => s
  | some y =>
    let saved_left_right := (s.node y).right
    let s := setRight s y (some node)
    let s := setParent s y (s.node node).parent
    let s :=
      match (s.node node).parent with
      | none => setRoot s (s.node node).left
      | some np =>
        if (s.node np).left = some node then setLeft s np (s.node node).left
        else setRight s np (s.node node).left
    let s := setParent s node (s.node node).left
    let s := setLeft s node saved_left_right
    match saved_left_right with
    | none => s
    | some sv => setParent s sv (some node)

/-- Cases 1-3 of `rbtree_balance_insert` (src/kernel/rbtree.c:166-216): the
`while (true)` loop.  Returns `some node` when the loop breaks into case 4, or
`none` when the function returned inside the loop.  The loop climbs two levels
per iteration, so for any acyclic heap it performs at most `heap.length`
iterations; exhausting the fuel corresponds to a C execution that never
terminates and is modelled as the function returning. -/
def rbtree_balance_insert_loop (s : RBTreeSt) (node : Nat) :
    Nat → RBTreeSt × Option Nat
  | 0 => (s, none)
  | fuel + 1 =>
    match (s.node node).parent with
    | none =>
      -- case 1: node->color = BLACK; tree->root = node; return
      (setRoot (setColor s node .black) (some node), none)
    | some p =>
      if (s.node p).color = .black then (s, none)  -- case 2
      else
        match rbtree_node_uncle s node with
        | some u =>
          if (s.node u).color = .red then
            -- case 3: repaint and continue from the grandparent
            match rbtree_node_grandparent s node with
            | some g =>
              let s := setColor s p .black
              let s := setColor s u .black
              let s := setColor s g .red
              rbtree_balance_insert_loop s g fuel
            | none => (s, none)  -- unreachable: a non-null uncle implies a grandparent
          else (s, some node)
        | none => (s, some node)

/-- Case 4 of `rbtree_balance_insert` (src/kernel/rbtree.c:218-266).  The
null-dereference paths (grandparent or parent null, or a missing child after
the pre-rotation) would crash in C and are unreachable from the loop's break
condition on well-formed trees; they are modelled as leaving the state
unchanged from that point. -/
def rbtree_balance_insert_case4 (s : RBTreeSt) (node : Nat) : RBTreeSt :=
  match rbtree_node_grandparent s node with
  | none => s
  | some g =>
    let step :
        RBTreeSt × Nat :=
      match (s.node node).parent with
      | none => (s, node)
      | some p =>
        if (s.node node).parent = (s.node g).left ∧ (s.node p).right = some node then
          let s := rbtree_rotate_left s p
          (s, ((s.node node).left).getD node)
        else if (s.node node).parent = (s.node g).right ∧ (s.node p).left = some node then
          let s := rbtree_rotate_right s p
          (s, ((s.node node).right).getD node)
        else (s, node)
    let s := step.1
    let node := step.2
    match (s.node node).parent with
    | none => s
    | some p2 =>
      let s := setColor s p2 .black
      let s := setColor s g .red
      if (s.node p2).left = some node then rbtree_rotate_right s g
      else rbtree_rotate_left s g

/-- `rbtree_balance_insert` (src/kernel/rbtree.c:149-266): paint the new node
red, run cases 1-3, then case 4 if the loop broke out.  `none` signals fuel
exhaustion of the climb (non-terminating C execution). -/
def rbtree_balance_insert (s : RBTreeSt) (node : Nat) : RBTreeSt :=
  let s := setColor s node .red
  match rbtree_balance_insert_loop s node (s.heap.length + 1) with
  | (s, none) => s
  | (s, some n) => rbtree_balance_insert_case4 s n

/-- Leftmost descent `while (new->left != NULL) new = new->left`
(src/kernel/rbtree.c:288-291 and 537-539).  `none` = fuel exhausted
(non-terminating C execution on a cyclic heap). -/
def rbtree_leftmost_from (s : RBTreeSt) (n : Nat) : Nat → Option Nat
  | 0 => none
  | fuel + 1 =>
    match (s.node n).left with
    | none => some n
    | some l => rbtree_leftmost_from s l fuel

/-- The `x == NULL || x->color == RBTREE_COLOR_BLACK` idiom of
src/kernel/rbtree.c (null leaves count as black). -/
def null_or_black (s : RBTreeSt) (c : Option Nat) : Bool :=
  match c with
  | none => true
  | some n => (s.node n).color == Color.black

/-- Cases 1-3 of the `rbtree_delete` rebalancing loop
(src/kernel/rbtree.c:341-394).  Returns `some current` on `goto case456` and
`none` on `goto finish`.  A null sibling would be dereferenced (crash) in C:
unreachable on well-formed trees, modelled as proceeding to `finish`.  The
loop climbs one level per iteration, hence the heap-sized fuel. -/
def rbtree_delete_loop (s : RBTreeSt) (current : Nat) :
    Nat → RBTreeSt × Option Nat
  | 0 => (s, none)
  | fuel + 1 =>
    match (s.node current).parent with
    | none => (s, none)  -- case 1
    | some _ =>
      match rbtree_node_sibling s current with
      | none => (s, none)
      | some sib0 =>
        let s :=
          if (s.node sib0).color = .red then
            -- case 2
            match (s.node current).parent with
            | some p =>
              let s := setColor s p .red
              let s := setColor s sib0 .black
              if (s.node p).left = some current then rbtree_rotate_left s p
              else rbtree_rotate_right s p
            | none => s
          else s
        match rbtree_node_sibling s current with
        | none => (s, none)
        | some sib =>
          match (s.node current).parent with
          | none => (s, none)
          | some p =>
            -- case 3
            if (s.node p).color == Color.black && (s.node sib).color == Color.black &&
                null_or_black s (s.node sib).left && null_or_black s (s.node sib).right then
              let s := setColor s sib .red
              rbtree_delete_loop s p fuel
            else (s, some current)

/-- Cases 4-6 of `rbtree_delete` (src/kernel/rbtree.c:396-508).  The
`DEBUG_ASSERT`s of the source are fatal assertions that hold on well-formed
trees; the corresponding null-dereference paths are modelled as skipping the
inaccessible write. -/
def rbtree_delete_case456 (s : RBTreeSt) (current : Nat) : RBTreeSt :=
  match rbtree_node_sibling s current with
  | none => s
  | some sib =>
    match (s.node current).parent with
    | none => s
    | some p =>
      if (s.node p).color == Color.red &&
          null_or_black s (s.node sib).left && null_or_black s (s.node sib).right then
        -- case 4
        let s := setColor s sib .red
        setColor s p .black
      else
        -- case 5
        let step : RBTreeSt × Nat :=
          if (s.node p).left = some current ∧ null_or_black s (s.node sib).right then
            match (s.node sib).left with
            | some sl =>
              let s := setColor s sib .red
              let s := setColor s sl .black
              let s := rbtree_rotate_right s sib
              (s, ((s.node sib).parent).getD sib)
            | none => (s, sib)
          else if (s.node p).right = some current ∧ null_or_black s (s.node sib).left then
            match (s.node sib).right with
            | some sr =>
              let s := setColor s sib .red
              let s := setColor s sr .black
              let s := rbtree_rotate_left s sib
              (s, ((s.node sib).parent).getD sib)
            | none => (s, sib)
          else (s, sib)
        let s := step.1
        let sib := step.2
        -- case 6
        match (s.node current).parent with
        | none => s
        | some p2 =>
          let s := setColor s sib ((s.node p2).color)
          let s := setColor s p2 .black
          if (s.node p2).left = some current then
            let s :=
              match (s.node sib).right with
              | some sr => setColor s sr .black
              | none => s
            rbtree_rotate_left s p2
          else
            let s :=
              match (s.node sib).left with
              | some sl => setColor s sl .black
              | none => s
            rbtree_rotate_right s p2

/-- The rebalancing tail of `rbtree_delete`: loop, then cases 4-6 if the loop
jumped there, then `finish:` which detaches the node
(src/kernel/rbtree.c:336-517). -/
def rbtree_delete_rebalance (s : RBTreeSt) (node : Nat) : RBTreeSt :=
  match rbtree_delete_loop s node (s.heap.length + 1) with
  | (s, none) => rbtree_replace_node s none node
  | (s, some cur) => rbtree_replace_node (rbtree_delete_case456 s cur) none node

/-- `rbtree_delete` (src/kernel/rbtree.c:268-517).  With two children it
replaces the node by the minimum of its right subtree and returns (the source,
unlike a standard implementation, neither adopts the node's children nor
recolors nor rebalances here).  Otherwise: a red node is replaced by its
child; a black node with a red child is replaced by it after repainting it
black; the remaining black-with-null-child case runs the rebalancing loop.
`none` = an internal loop exhausted its fuel (non-terminating C execution). -/
def rbtree_delete (s : RBTreeSt) (node : Nat) : Option RBTreeSt :=
  match (s.node node).left, (s.node node).right with
  | some _, some r =>
    match rbtree_leftmost_from s r (s.heap.length + 1) with
    | none => none
    | some nw => some (rbtree_replace_node s (some nw) node)
  | _, _ =>
    let child :=
      if (s.node node).left = none then (s.node node).right else (s.node node).left
    if (s.node node).color = .red then some (rbtree_replace_node s child node)
    else
      match child with
      | some c =>
        if (s.node c).color = .red then
          some (rbtree_replace_node (setColor s c .black) (some c) node)
        else
          -- DEBUG_ASSERT(child == NULL) fails here (fatal on well-formed input,
          -- unreachable); the source would continue into the loop
          some (rbtree_delete_rebalance s node)
      | none => some (rbtree_delete_rebalance s node)

/-- Climb of `rbtree_node_next` (src/kernel/rbtree.c:551-554):
`while (node->parent != NULL && node == node->parent->right) node = node->parent;
return node->parent`. -/
def rbtree_node_next_up (s : RBTreeSt) (node : Nat) : Nat → Option (Option Nat)
  | 0 => none
  | fuel + 1 =>
    match (s.node node).parent with
    | none => some none
    | some p =>
      if (s.node p).right = some node then rbtree_node_next_up s p fuel
      else some (some p)

/-- `rbtree_node_next` (src/kernel/rbtree.c:532-556): in-order successor.
Outer `none` = fuel exhaustion; inner option is the C return value. -/
def rbtree_node_next (s : RBTreeSt) (node : Nat) : Option (Option Nat) :=
  match (s.node node).right with
  | some r =>
    match rbtree_leftmost_from s r (s.heap.length + 1) with
    | none => none
    | some m => some (some m)
  | none => rbtree_node_next_up s node (s.heap.length + 1)

/-- In-order node collection (bounded by fuel, one unit per tree level), used
to state which nodes the tree still reaches from its root. -/
def rbtree_collect (s : RBTreeSt) : Option Nat → Nat → List Nat
  | _, 0 => []
  | none, _ => []
  | some i, fuel + 1 =>
    rbtree_collect s (s.node i).left fuel ++ i ::
      rbtree_collect s (s.node i).right fuel

/-- The nodes reachable from the tree root. -/
def tree_nodes (s : RBTreeSt) : List Nat :=
  rbtree_collect s s.root (s.heap.length + 1)

/-! ## Frame allocator (src/kernel/memory.c free-region tree)

`memory_free_region_tree_t` holds the rbtree and the `total_free` page
counter.  Region nodes are allocated from the bump heap; `next_node` models
the stream of distinct addresses `memory_alloc` hands out for them (the bump
allocator never reuses an address).  `memory_free` is a no-op
(src/kernel/memory.c:195-201), so discarded nodes simply stay in the node
heap, detached. -/

structure FRState where
  rb : RBTreeSt
  total_free : Nat
  next_node : Nat

/-- Walk of `memory_free_region_insert` (src/kernel/memory.c:240-249) looking
for the attachment parent by region length.  `none` = fuel exhausted. -/
def fr_insert_walk (s : RBTreeSt) (nodePages : Nat) (parent : Nat) :
    Nat → Option Nat
  | 0 => none
  | fuel + 1 =>
    if (s.node parent).pages ≤ nodePages then
      match (s.node parent).right with
      | some r => fr_insert_walk s nodePages r fuel
      | none => some parent
    else
      match (s.node parent).left with
      | some l => fr_insert_walk s nodePages l fuel
      | none => some parent

/-- `memory_free_region_insert` (src/kernel/memory.c:220-266).  The two
`DEBUG_ASSERT`s (base 4 KiB-aligned, pages > 0) are fatal assertions that hold
at every call site the claims exercise.  An empty tree takes the node as root
without balancing; otherwise the node is attached under the walk's parent on
the side given by the length comparison and the tree is rebalanced.  Finally
`total_free += node->pages`. -/
def memory_free_region_insert (s : FRState) (node : Nat) : Option FRState :=
  match s.rb.root with
  | none =>
    let rb := setRoot s.rb (some node)
    let rb := setParent rb node none
    some { s with rb := rb, total_free := u64add s.total_free ((rb.node node).pages) }
  | some root =>
    match fr_insert_walk s.rb ((s.rb.node node).pages) root (s.rb.heap.length + 1) with
    | none => none
    | some parent =>
      let rb := setParent s.rb node (some parent)
      let rb :=
        if (rb.node parent).pages ≤ (rb.node node).pages then
          setRight rb parent (some node)
        else setLeft rb parent (some node)
      let rb := rbtree_balance_insert rb node
      some { s with rb := rb, total_free := u64add s.total_free ((rb.node node).pages) }

/-- First search loop of `memory_free_region_acquire`
(src/kernel/memory.c:284-287): go left while the node is strictly larger than
the request. -/
def fr_walk_left (s : RBTreeSt) (pages node : Nat) : Nat → Option Nat
  | 0 => none
  | fuel + 1 =>
    if (s.node node).pages > pages then
      match (s.node node).left with
      | some l => fr_walk_left s pages l fuel
      | none => some node
    else some node

/-- Second search loop of `memory_free_region_acquire`
(src/kernel/memory.c:291-297): step through in-order successors while the node
is too small; stops (keeping the last node) when there is no successor. -/
def fr_next_loop (s : RBTreeSt) (pages node : Nat) : Nat → Option Nat
  | 0 => none
  | fuel + 1 =>
    if (s.node node).pages < pages then
      match rbtree_node_next s node with
      | none => none
      | some none => some node
      | some (some nx) => fr_next_loop s pages nx fuel
    else some node

/-- The node `memory_free_region_acquire` selects: the two search loops
composed, starting from the root. -/
def memory_free_region_acquire_select (s : FRState) (pages : Nat) : Option Nat :=
  match s.rb.root with
  | none => none
  | some root =>
    match fr_walk_left s.rb pages root (s.rb.heap.length + 1) with
    | none => none
    | some n => fr_next_loop s.rb pages n (s.rb.heap.length + 1)

/-- `memory_free_region_acquire` (src/kernel/memory.c:268-333).  Returns
`(granted, physical_base, state)`; an empty tree returns granted 0 (the C
code then leaves `*physical_base` unwritten, modelled as 0).  The selected
node is deleted from the tree and debited from `total_free`; if it is larger
than the request, its rbtree links are zeroed (`memory_set(&node->node, 0,
...)`), `pages` is decremented by the request and the node re-inserted, and
the returned base is `node->physical_base + (node->pages << 12)` computed
from the already-decremented count; otherwise the whole node is returned
(`memory_free` is a no-op).  `none` = an internal walk exhausted its fuel. -/
def memory_free_region_acquire (s : FRState) (pages : Nat) :
    Option (Nat × Nat × FRState) :=
  match s.rb.root with
  | none => some (0, 0, s)
  | some _ =>
    match memory_free_region_acquire_select s pages with
    | none => none
    | some nid =>
      match rbtree_delete s.rb nid with
      | none => none
      | some rb =>
        let total := u64sub s.total_free ((rb.node nid).pages)
        if (rb.node nid).pages > pages then
          let n0 := rb.node nid
          let rb :=
            { rb with
              heap := hset rb.heap nid
                { color := .black, parent := none, left := none, right := none
                  physical_base := n0.physical_base, pages := n0.pages - pages } }
          match memory_free_region_insert
              { rb := rb, total_free := total, next_node := s.next_node } nid with
          | none => none
          | some s2 =>
            some (pages,
              u64add ((s2.rb.node nid).physical_base) (((s2.rb.node nid).pages) <<< 12),
              s2)
        else
          some ((rb.node nid).pages, (rb.node nid).physical_base,
            { rb := rb, total_free := total, next_node := s.next_node })

/-- `memory_free_region_release` (src/kernel/memory.c:335-350): allocate a
node from the bump heap (modelled by the fresh address `next_node`; the
allocation never fails in the scenarios considered), zero it, set its base and
page count and insert it. -/
def memory_free_region_release (s : FRState) (physical_base pages : Nat) :
    Option FRState :=
  let nid := s.next_node
  let rb :=
    { s.rb with
      heap := hset s.rb.heap nid
        { color := .black, parent := none, left := none, right := none
          physical_base := physical_base, pages := pages } }
  memory_free_region_insert { s with rb := rb, next_node := nid + 1 } nid

/-- The empty frame-allocator state (`{{NULL}, 0}`, src/kernel/memory.c:49). -/
def fr_empty : FRState := { rb := { root := none, heap := [] }, total_free := 0, next_node := 0 }

/-- Total pages summed over the nodes the tree still reaches — the quantity
the spec's consistency invariant compares with `total_free`. -/
def tree_pages_sum (s : FRState) : Nat :=
  ((tree_nodes s.rb).map (fun i => (s.rb.node i).pages)).sum

/-! ### Payload preservation

The rbtree operations write only the `color/parent/left/right` fields; the
`physical_base`/`pages` payload of every node is untouched.  These lemmas let
the acquire theorem read the payload across `rbtree_delete` and the
re-insertion. -/

/-- The payload of a node: its region base and page count. -/
def payload (s : RBTreeSt) (m : Nat) : Nat × Nat :=
  ((s.node m).physical_base, (s.node m).pages)

theorem node_setColor (s : RBTreeSt) (i : Nat) (c : Color) (m : Nat) :
    (setColor s i c).node m = if m = i then { s.node i with color := c } else s.node m := by
  unfold setColor RBTreeSt.node
  exact hget_hset ..

theorem node_setParent (s : RBTreeSt) (i : Nat) (p : Option Nat) (m : Nat) :
    (setParent s i p).node m = if m = i then { s.node i with parent := p } else s.node m := by
  unfold setParent RBTreeSt.node
  exact hget_hset ..

theorem node_setLeft (s : RBTreeSt) (i : Nat) (l : Option Nat) (m : Nat) :
    (setLeft s i l).node m = if m = i then { s.node i with left := l } else s.node m := by
  unfold setLeft RBTreeSt.node
  exact hget_hset ..

theorem node_setRight (s : RBTreeSt) (i : Nat) (r : Option Nat) (m : Nat) :
    (setRight s i r).node m = if m = i then { s.node i with right := r } else s.node m := by
  unfold setRight RBTreeSt.node
  exact hget_hset ..

theorem node_setRoot (s : RBTreeSt) (r : Option Nat) (m : Nat) :
    (setRoot s r).node m = s.node m := rfl

theorem payload_setColor (s : RBTreeSt) (i : Nat) (c : Color) (m : Nat) :
    payload (setColor s i c) m = payload s m := by
  unfold payload
  rw [node_setColor]
  split <;> simp_all

theorem payload_setParent (s : RBTreeSt) (i : Nat) (p : Option Nat) (m : Nat) :
    payload (setParent s i p) m = payload s m := by
  unfold payload
  rw [node_setParent]
  split <;> simp_all

theorem payload_setLeft (s : RBTreeSt) (i : Nat) (l : Option Nat) (m : Nat) :
    payload (setLeft s i l) m = payload s m := by
  unfold payload
  rw [node_setLeft]
  split <;> simp_all

theorem payload_setRight (s : RBTreeSt) (i : Nat) (r : Option Nat) (m : Nat) :
    payload (setRight s i r) m = payload s m := by
  unfold payload
  rw [node_setRight]
  split <;> simp_all

theorem payload_setRoot (s : RBTreeSt) (r : Option Nat) (m : Nat) :
    payload (setRoot s r) m = payload s m := rfl

theorem payload_rotate_left (s : RBTreeSt) (x m : Nat) :
    payload (rbtree_rotate_left s x) m = payload s m := by
  unfold rbtree_rotate_left
  split
  · rfl
  · dsimp only
    split <;> (try split) <;> (try split) <;>
      simp [payload_setColor, payload_setParent, payload_setLeft, payload_setRight,
        payload_setRoot]

theorem payload_rotate_right (s : RBTreeSt) (x m : Nat) :
    payload (rbtree_rotate_right s x) m = payload s m := by
  unfold rbtree_rotate_right
  split
  · rfl
  · dsimp only
    split <;> (try split) <;> (try split) <;>
      simp [payload_setColor, payload_setParent, payload_setLeft, payload_setRight,
        payload_setRoot]

theorem payload_replace_node (s : RBTreeSt) (nw : Option Nat) (old m : Nat) :
    payload (rbtree_replace_node s nw old) m = payload s m := by
  unfold rbtree_replace_node
  dsimp only
  split <;> (try split) <;> (try split) <;> (try split) <;> (try split) <;>
    simp [payload_setColor, payload_setParent, payload_setLeft, payload_setRight,
      payload_setRoot]

theorem payload_balance_insert_loop (m : Nat) :
    ∀ (fuel : Nat) (s : RBTreeSt) (node : Nat),
      payload (rbtree_balance_insert_loop s node fuel).1 m = payload s m := by
  intro fuel
  induction fuel with
  | zero => intro s node; rfl
  | succ fuel ih =>
    intro s node
    unfold rbtree_balance_insert_loop
    split
    · simp [payload_setColor, payload_setRoot]
    · split
      · rfl
      · split
        · split
          · split
            · rw [ih]
              simp [payload_setColor]
            · rfl
          · rfl
        · rfl

theorem payload_balance_insert_case4 (s : RBTreeSt) (node m : Nat) :
    payload (rbtree_balance_insert_case4 s node) m = payload s m := by
  unfold rbtree_balance_insert_case4
  split
  · rfl
  · dsimp only
    (repeat' split) <;>
      simp [payload_setColor, payload_setParent, payload_setLeft, payload_setRight,
        payload_setRoot, payload_rotate_left, payload_rotate_right]

theorem payload_balance_insert (s : RBTreeSt) (node m : Nat) :
    payload (rbtree_balance_insert s node) m = payload s m := by
  unfold rbtree_balance_insert
  dsimp only
  split
  · rename_i s' heq
    have := payload_balance_insert_loop m ((setColor s node .red).heap.length + 1)
      (setColor s node .red) node
    rw [heq] at this
    rw [this, payload_setColor]
  · rename_i s' n heq
    have := payload_balance_insert_loop m ((setColor s node .red).heap.length + 1)
      (setColor s node .red) node
    rw [heq] at this
    rw [payload_balance_insert_case4, this, payload_setColor]

theorem payload_delete_loop (m : Nat) :
    ∀ (fuel : Nat) (s : RBTreeSt) (cur : Nat),
      payload (rbtree_delete_loop s cur fuel).1 m = payload s m := by
  intro fuel
  induction fuel with
  | zero => intro s cur; rfl
  | succ fuel ih =>
    intro s cur
    unfold rbtree_delete_loop
    dsimp only
    (repeat' split) <;> (try rw [ih]) <;>
      simp [payload_setColor, payload_setParent, payload_setLeft, payload_setRight,
        payload_setRoot, payload_rotate_left, payload_rotate_right]

theorem payload_delete_case456 (s : RBTreeSt) (cur m : Nat) :
    payload (rbtree_delete_case456 s cur) m = payload s m := by
  unfold rbtree_delete_case456
  dsimp only
  (repeat' split) <;>
    simp [payload_setColor, payload_setParent, payload_setLeft, payload_setRight,
      payload_setRoot, payload_rotate_left, payload_rotate_right]


theorem payload_delete_rebalance (s : RBTreeSt) (node m : Nat) :
    payload (rbtree_delete_rebalance s node) m = payload s m := by
  unfold rbtree_delete_rebalance
  split
  · rename_i s' heq
    have := payload_delete_loop m (s.heap.length + 1) s node
    rw [heq] at this
    rw [payload_replace_node, this]
  · rename_i s' cur heq
    have := payload_delete_loop m (s.heap.length + 1) s node
    rw [heq] at this
    rw [payload_replace_node, payload_delete_case456, this]

theorem payload_delete {s : RBTreeSt} {node : Nat} {rb : RBTreeSt}
    (h : rbtree_delete s node = some rb) (m : Nat) :
    payload rb m = payload s m := by
  unfold rbtree_delete at h
  dsimp only at h
  split at h
  · split at h
    · exact absurd h (by simp)
    · rw [Option.some_inj] at h
      rw [← h, payload_replace_node]
  · split at h
    · rw [Option.some_inj] at h
      rw [← h, payload_replace_node]
    · split at h
      · split at h
        · rw [Option.some_inj] at h
          rw [← h, payload_replace_node, payload_setColor]
        · rw [Option.some_inj] at h
          rw [← h, payload_delete_rebalance]
      · rw [Option.some_inj] at h
        rw [← h, payload_delete_rebalance]

theorem payload_insert {s : FRState} {node : Nat} {s2 : FRState}
    (h : memory_free_region_insert s node = some s2) (m : Nat) :
    payload s2.rb m = payload s.rb m := by
  unfold memory_free_region_insert at h
  dsimp only at h
  split at h
  · rw [Option.some_inj] at h
    rw [← h]
    dsimp only
    rw [payload_setParent, payload_setRoot]
  · split at h
    · exact absurd h (by simp)
    · rw [Option.some_inj] at h
      rw [← h]
      dsimp only
      rw [payload_balance_insert]
      split <;> simp [payload_setLeft, payload_setRight, payload_setParent]

theorem insert_total_eq {s : FRState} {n : Nat} {s2 : FRState}
    (h : memory_free_region_insert s n = some s2) :
    s2.total_free = u64add s.total_free ((s2.rb.node n).pages) := by
  unfold memory_free_region_insert at h
  dsimp only at h
  split at h
  · rw [Option.some_inj] at h
    rw [← h]
  · split at h
    · exact absurd h (by simp)
    · rw [Option.some_inj] at h
      rw [← h]

/-- Claim C1: in any `memory_free_region_acquire(pages, &base)` call whose
selected node holds strictly more pages than requested (and which returns —
the fueled walks correspond to terminating C executions), the call grants
exactly the requested pages; the selected node's record ends with its page
count decremented by the request and its base unchanged, and `total_free` is
re-credited with the decremented count by the re-insertion (the call returns
only after `memory_free_region_insert` of that node succeeded); the returned
physical base equals the node's original base plus (original pages − requested
pages)·4096: the subtraction happens before the base computation, trimming the
region's high end. -/
theorem C1_acquire_split_trims_high_end
    (s : FRState) (pages nid granted base : Nat) (s2 : FRState)
    (hsel : memory_free_region_acquire_select s pages = some nid)
    (hgt : pages < (s.rb.node nid).pages)
    (hacq : memory_free_region_acquire s pages = some (granted, base, s2))
    (hbound : (s.rb.node nid).physical_base +
      ((s.rb.node nid).pages - pages) * 4096 < 2 ^ 64) :
    granted = pages ∧
    base = (s.rb.node nid).physical_base + ((s.rb.node nid).pages - pages) * 4096 ∧
    (s2.rb.node nid).pages = (s.rb.node nid).pages - pages ∧
    (s2.rb.node nid).physical_base = (s.rb.node nid).physical_base ∧
    s2.total_free = u64add (u64sub s.total_free ((s.rb.node nid).pages))
      ((s.rb.node nid).pages - pages) := by
  unfold memory_free_region_acquire at hacq
  split at hacq
  · rename_i hroot
    unfold memory_free_region_acquire_select at hsel
    rw [hroot] at hsel
    exact absurd hsel (by simp)
  · rw [hsel] at hacq
    dsimp only at hacq
    cases hdel : rbtree_delete s.rb nid with
    | none => rw [hdel] at hacq; exact absurd hacq (by simp)
    | some rb =>
      rw [hdel] at hacq
      dsimp only at hacq
      have hpay : payload rb nid = payload s.rb nid := payload_delete hdel nid
      unfold payload at hpay
      rw [Prod.ext_iff] at hpay
      obtain ⟨hpb, hpp⟩ := hpay
      dsimp only at hpb hpp
      rw [if_pos (by rw [hpp]; exact hgt)] at hacq
      split at hacq
      · exact absurd hacq (by simp)
      · rename_i s2' hins
        rw [Option.some_inj, Prod.mk.injEq, Prod.mk.injEq] at hacq
        obtain ⟨hg, hb, hs2⟩ := hacq
        have hpay2 := payload_insert hins nid
        unfold payload at hpay2
        rw [Prod.ext_iff] at hpay2
        obtain ⟨hpb2, hpp2⟩ := hpay2
        dsimp only [RBTreeSt.node] at hpb2 hpp2
        rw [hget_hset, if_pos rfl] at hpb2 hpp2
        dsimp only at hpb2 hpp2
        have e1 : (s2'.rb.node nid).physical_base = (s.rb.node nid).physical_base := by
          show (hget s2'.rb.heap nid).physical_base = _
          rw [hpb2]
          exact hpb
        have e2 : (s2'.rb.node nid).pages = (s.rb.node nid).pages - pages := by
          show (hget s2'.rb.heap nid).pages = _
          rw [hpp2]
          exact congrArg (· - pages) hpp
        rw [← hs2]
        refine ⟨hg.symm, ?_, e2, e1, ?_⟩
        · rw [← hb, e1, e2, Nat.shiftLeft_eq]
          exact u64add_of_lt (by norm_num at hbound ⊢; omega)
        · rw [insert_total_eq hins, e2]
          dsimp only
          rw [hpp]

/-- A tree holding one free region of 5 pages at physical base 0x400000. -/
def fr_one : FRState :=
  (memory_free_region_release fr_empty 0x400000 5).getD fr_empty

theorem C1_witness :
    ∃ s2 : FRState,
      memory_free_region_acquire fr_one 2 = some (2, 0x400000 + 3 * 4096, s2) ∧
        (s2.rb.node 0).pages = 3 ∧ (s2.rb.node 0).physical_base = 0x400000 := by
  have hsel : memory_free_region_acquire_select fr_one 2 = some 0 := by decide
  have hgt : 2 < (fr_one.rb.node 0).pages := by decide
  obtain ⟨g, b, s2, hacq⟩ :
      ∃ g b s2, memory_free_region_acquire fr_one 2 = some (g, b, s2) :=
    ⟨_, _, _, rfl⟩
  obtain ⟨hg, hb, hp, hpb, _⟩ :=
    C1_acquire_split_trims_high_end fr_one 2 0 g b s2 hsel hgt hacq (by decide)
  refine ⟨s2, ?_, ?_, ?_⟩
  · rw [hacq, hg, hb]
    norm_num [show (fr_one.rb.node 0).physical_base = 0x400000 from by decide,
      show (fr_one.rb.node 0).pages = 5 from by decide]
  · rw [hp]
    decide
  · rw [hpb]
    decide

/-- The free tree after releasing three regions of 1, 2 and 3 pages — a legal
insertion sequence of the frame allocator (node addresses 0, 1, 2; the
resulting tree has root node 1 with node 0 left and node 2 right). -/
def fr_three : Option FRState :=
  (memory_free_region_release fr_empty 0x400000 1).bind fun s =>
    (memory_free_region_release s 0x401000 2).bind fun s =>
      memory_free_region_release s 0x402000 3

/-- Claim C2 (failing run): after inserting regions of 1, 2 and 3 pages
through the frame allocator's insert (placement by comparison, then
`rbtree_balance_insert`) the tree is a valid red-black tree rooted at node 1
with red children 0 and 2.  `rbtree_delete` of the root — a node with two
children — leaves the tree rooted at node 2 with color red (violating
root-is-black) and reaching only node 2: node 0 is lost entirely, because the
two-children branch of `rbtree_delete` calls `rbtree_replace_node` and
returns, never adopting the deleted node's children, recoloring, or
rebalancing.  The repository's own `test_rbtree_c`
(src/kernel/test.c:427-475) checks exactly these properties after each
delete. -/
theorem C2_delete_two_children_breaks_invariants :
    (fr_three.bind fun s => rbtree_delete s.rb 1).map
        (fun d => (d.root, (d.node 2).color, tree_nodes d)) =
      some (some 2, Color.red, [2]) := by
  decide

/-- Claim C3 (failing run and the delta that does hold): after releasing
regions of 1, 2 and 3 pages and acquiring 2 pages, `total_free` is 4 but the
nodes still reachable in the tree sum to 3 pages — the acquire's
`rbtree_delete` of the root (two children) lost the 1-page node, so the
consistency invariant `total_free = Σ pages` fails on a legal call sequence.
The claim's arithmetic deltas do hold pointwise: acquiring 16 pages from a
16-page region decreases `total_free` by exactly 16. -/
theorem C3_total_free_sum_divergence :
    ((fr_three.bind fun s => memory_free_region_acquire s 2).map
        (fun a => (a.1, a.2.2.total_free, tree_pages_sum a.2.2)) =
      some (2, 4, 3)) ∧
    (((memory_free_region_release fr_empty 0x400000 16).bind fun t =>
        memory_free_region_acquire t 16).map
        (fun a => (a.1, a.2.2.total_free)) = some (16, 0)) := by
  decide

/-! ## Kernel bump heap (src/kernel/memory.c:105-213)

State of the bump allocator: `memory_heap_start`, `memory_heap_end`,
`memory_heap_length`, the two mode flags and the free-region tree used for
heap growth.  Addresses are uint64 values; the C comparison
`heap_start + heap_length > heap_end - (grow ? BUFZONE : 0)` is written
`heap_start + heap_length + bufzone > heap_end`, equivalent whenever
`heap_end ≥ bufzone` (always true: the large heap is created with a
bufzone-sized mapping).  The `paging_map` call inside the growth branch
(memory.c:161-163) runs with growth disabled but is *reentrant on this same
heap*: it allocates intermediate page tables through
`__paging_alloc_page_phy_lin` (paging.c:368-379, a `memory_alloc_aligned`)
and phy-lin map nodes (paging.c:171, a `memory_alloc`), advancing
`memory_heap_length` beyond the caller's own bump.  `memory_alloc` below
therefore embeds only the non-growing fragment of the allocator — its growth
branch yields `none` (outside this fragment) — which is exact whenever the
growth branch is not taken, in particular for every nested allocation (growth
is disabled around the `paging_map` call).  The full allocator, with the
growth branch and its reentrant paging allocations, is `kmemory_alloc` below
the paging definitions it needs; `kmemory_alloc_agrees_nogrow` proves the
two agree whenever the growth branch cannot be taken. -/

/-- `MEMORY_BUFZONE_SIZE` (src/kernel/memory.c:106). -/
def MEMORY_BUFZONE_SIZE : Nat := 4 * 4096

structure HeapSt where
  heap_start : Nat
  heap_end : Nat
  heap_length : Nat
  large_enabled : Bool
  grow_enabled : Bool
  fr : FRState

/-- The buffer-zone margin of the heap-limit comparison. -/
def memory_bufzone (s : HeapSt) : Nat :=
  if s.grow_enabled then MEMORY_BUFZONE_SIZE else 0

/-- The `while` loop of `memory_alloc` (src/kernel/memory.c:137-185),
restricted to the non-growing fragment: when the limit is exceeded the
growth branch (large heap enabled and growth allowed) is *not modelled
here* — it returns `none`; both non-growing branches return NULL (`false`)
without touching the state, and when the limit is not exceeded the loop
exits (`true`).  The full loop including growth is `kmemory_alloc_loop`. -/
def memory_alloc_loop (s : HeapSt) : Option (Bool × HeapSt) :=
  if s.heap_start + s.heap_length + memory_bufzone s > s.heap_end then
    if s.large_enabled ∧ s.grow_enabled then
      none
    else some (false, s)
      -- "ran out of initial heap" when the large heap is not enabled,
      -- "tried to grow the heap recursively" when growth is disabled
  else some (true, s)

/-- `memory_alloc` (src/kernel/memory.c:130-193), non-growing fragment:
remember the bump pointer, advance `memory_heap_length` by `size`, then run
the limit check; on success return the remembered pointer, on failure return
NULL — with `memory_heap_length` left advanced. -/
def memory_alloc (size : Nat) (s : HeapSt) : Option (Option Nat × HeapSt) :=
  let result := s.heap_start + s.heap_length
  let s := { s with heap_length := u64add s.heap_length size }
  (memory_alloc_loop s).map
    fun r => (if r.1 then some result else none, r.2)

/-- `memory_free` (src/kernel/memory.c:195-201): do nothing. -/
def memory_free (_pointer : Nat) (s : HeapSt) : HeapSt := s

/-- `memory_alloc_aligned` (src/kernel/memory.c:203-213): pad
`memory_heap_length` up to the alignment of the would-be pointer, then
allocate. -/
def memory_alloc_aligned (size alignment : Nat) (s : HeapSt) :
    Option (Option Nat × HeapSt) :=
  let pointer_value := s.heap_start + s.heap_length
  let s :=
    if pointer_value % alignment ≠ 0 then
      { s with heap_length := u64add s.heap_length (alignment - pointer_value % alignment) }
    else s
  memory_alloc size s

/-! ## Process heap adjustment (src/kernel/process.c:380-414)

`process_adjust_heap(process, amount)` adjusts `process->heap_length` (uint64)
by the signed `amount` and grows or shrinks the mapped heap between
`PROCESS_HEAP_BASE` and the end of the heap in whole 4 KiB pages.
`PROCESS_HEAP_BASE` is used by process.c but defined outside src/; it is
modelled from the spec ("grows or shrinks the process's heap between
PROCESS_HEAP_BASE and the current end") as an abstract base address parameter
`heapBase`.  The grow path calls `process_alloc`, whose success depends on the
frame allocator and the page tables; its outcome is abstracted as the
`alloc_ok` parameter (the rest of `process_alloc`'s effect is on the pageset,
not on the data this function returns).  The shrink path's `process_free`
likewise only touches the pageset and frame tree.  Returns the pair
`(new heap_length, returned end-of-heap pointer)`. -/

/-- Pages needed for `n` bytes of heap, as process.c computes it:
`n / 4096`, plus one when `n % 4096 != 0`. -/
def heap_pages (n : Nat) : Nat := n / 4096 + if n % 4096 ≠ 0 then 1 else 0

/-- `process_adjust_heap` (src/kernel/process.c:380-414). -/
def process_adjust_heap (heapBase heap_length : Nat) (amount : Int)
    (alloc_ok : Bool) : Nat × Nat :=
  let old_heap_length := heap_length
  let heap_length := u64addInt heap_length amount
  let old_heap_pages := heap_pages old_heap_length
  let new_heap_pages := heap_pages heap_length
  if new_heap_pages > old_heap_pages then
    if alloc_ok then (heap_length, (heapBase + new_heap_pages * 4096) % 2 ^ 64)
    else
      -- allocation error: heap_length -= amount; new_heap_pages = old_heap_pages
      (u64addInt heap_length (-amount), (heapBase + old_heap_pages * 4096) % 2 ^ 64)
  else
    -- equal: nothing to map or free; smaller: process_free the tail pages
    (heap_length, (heapBase + new_heap_pages * 4096) % 2 ^ 64)

theorem u64addInt_neg_cancel {a : Nat} (b : Int) (h : a < 2 ^ 64) :
    u64addInt (u64addInt a b) (-b) = a := by
  unfold u64addInt
  have h1 : 0 ≤ ((a : Int) + b).emod (2 ^ 64) := Int.emod_nonneg _ (by norm_num)
  rw [Int.toNat_of_nonneg h1]
  have h3 : (((a : Int) + b).emod (2 ^ 64) + -b).emod (2 ^ 64) =
      ((a : Int) + b + -b).emod (2 ^ 64) := Int.emod_add_emod _ _ _
  rw [h3, show (a : Int) + b + -b = (a : Int) by ring]
  have h4 : ((a : Int)).emod (2 ^ 64) = (a : Int) :=
    Int.emod_eq_of_lt (by positivity) (by exact_mod_cast h)
  rw [h4]
  simp

/-- Claim C9: `process_adjust_heap` returns the new end-of-heap pointer — the
heap base plus the new heap length rounded up to whole 4 KiB pages — both
when the adjustment needs no allocation and when the grow path's allocation
succeeds; and when growing fails because page allocation fails, the
adjustment is undone: `heap_length` is restored to its previous value and the
returned pointer equals the end-of-heap from before the call. -/
theorem C9_adjust_heap_returns_end_and_rolls_back
    (heapBase heap_length : Nat) (amount : Int) (alloc_ok : Bool)
    (hlen : heap_length < 2 ^ 64) :
    ((heap_pages (u64addInt heap_length amount) ≤ heap_pages heap_length ∨
        alloc_ok = true) →
      process_adjust_heap heapBase heap_length amount alloc_ok =
        (u64addInt heap_length amount,
          (heapBase + heap_pages (u64addInt heap_length amount) * 4096) % 2 ^ 64)) ∧
    ((heap_pages (u64addInt heap_length amount) > heap_pages heap_length ∧
        alloc_ok = false) →
      process_adjust_heap heapBase heap_length amount alloc_ok =
        (heap_length, (heapBase + heap_pages heap_length * 4096) % 2 ^ 64)) := by
  constructor
  · intro h
    unfold process_adjust_heap
    dsimp only
    split
    · rename_i hgrow
      rcases h with h | h
      · omega
      · rw [if_pos h]
    · rfl
  · intro h
    unfold process_adjust_heap
    dsimp only
    rw [if_pos h.1, if_neg (by simp [h.2]), u64addInt_neg_cancel amount hlen]

theorem C9_witness :
    0 < 2 ^ 64 ∧
    process_adjust_heap (2 ^ 30) 0 5000 false = (0, 2 ^ 30) ∧
    process_adjust_heap (2 ^ 30) 0 5000 true = (5000, 2 ^ 30 + 2 * 4096) := by
  refine ⟨by norm_num, ?_, ?_⟩
  · have h := (C9_adjust_heap_returns_end_and_rolls_back (2 ^ 30) 0 5000 false
      (by norm_num)).2 (by decide)
    rw [h]
    decide
  · have h := (C9_adjust_heap_returns_end_and_rolls_back (2 ^ 30) 0 5000 true
      (by norm_num)).1 (Or.inr rfl)
    rw [h]
    decide

/-! ## Page-set engine (src/kernel/paging.c)

Pagesets hold a PML4 table, a physical → linear table map, and the physical
address of the PML4 (src/kernel/include/paging.h:245-250).  Page tables are
modelled as functions from index to entry; the table map (the rbtree
`paging_phy_lin_map_t`) is modelled as an association list from physical frame
number (`physical >> 12`) to the table contents reached through the mapped
linear alias — reading or writing "through the pointer obtained from
`paging_phy_lin_map_get`" becomes reading or updating the list entry.  The
pointer comparison `pageset == &paging_kernel_pageset` is modelled by the
`kernel` flag.  `__paging_alloc_page_phy_lin` (a zeroed kernel-heap page plus
its resolved physical address) is modelled by popping the `supply` list of
physical frame numbers of the successively allocated pages; an empty supply
is an allocation failure.  Bit-field stores truncate: a 40-bit physical-frame
field stores `frame % 2^40`. -/

/-- `PAGING_READONLY` (src/kernel/include/paging.h:272). -/
def PAGING_READONLY : Nat := 1

/-- Modelled from the spec: `PAGING_USER` is used by paging.c:787 and
process.c but its definition is not under src/; the spec says map applies
"`user` when requested" as a flag distinct from read-only, so it is modelled
as the next flag bit. -/
def PAGING_USER : Nat := 2

/-- PML4 entry (paging.h:33-45); only the fields the walkers use. -/
structure PML4Entry where
  present : Bool := false
  writable : Bool := false
  user : Bool := false
  pdpt_physical : Nat := 0
deriving DecidableEq, Repr

/-- PDPT entry (paging.h:52-96).  The union overlays a pointer form
(`pd_physical`, 40 bits at bit 12) and a 1 GiB page form (`page_physical`,
22 bits at bit 30) selected by `page_size`; no code path reads one form
after writing the other, so a single `phys` field carries whichever form
`page_size` selects. -/
structure PdptEntry where
  present : Bool := false
  writable : Bool := false
  user : Bool := false
  page_size : Bool := false
  phys : Nat := 0
deriving DecidableEq, Repr

/-- PD entry (paging.h:103-148), same union treatment as `PdptEntry`
(`pt_physical` at 40 bits versus a 2 MiB `page_physical` at 31 bits). -/
structure PdEntry where
  present : Bool := false
  writable : Bool := false
  user : Bool := false
  page_size : Bool := false
  phys : Nat := 0
deriving DecidableEq, Repr

/-- PT entry (paging.h:156-171). -/
structure PtEntry where
  present : Bool := false
  writable : Bool := false
  user : Bool := false
  page_physical : Nat := 0
deriving DecidableEq, Repr

/-- A page table reachable through the physical → linear map. -/
inductive PTable where
  | pdpt (t : Nat → PdptEntry)
  | pd (t : Nat → PdEntry)
  | pt (t : Nat → PtEntry)

/-- Physical → linear table map: frame number to table contents. -/
abbrev TableMap := List (Nat × PTable)

/-- `paging_phy_lin_map_get` (src/kernel/paging.c:113-142), returning the
table at the frame. -/
def tmGet (tm : TableMap) (frame : Nat) : Option PTable :=
  ((tm.find? (fun e => e.1 == frame)).map (·.2))

/-- `paging_phy_lin_map_set` (src/kernel/paging.c:144-200): update the entry
for the frame or insert a new one. -/
def tmSet (tm : TableMap) (frame : Nat) (t : PTable) : TableMap :=
  (frame, t) :: tm.filter (fun e => e.1 != frame)

theorem tmGet_tmSet (tm : TableMap) (frame : Nat) (t : PTable) (g : Nat) :
    tmGet (tmSet tm frame t) g = if g = frame then some t else tmGet tm g := by
  unfold tmGet tmSet
  by_cases hg : g = frame
  · subst hg
    simp [List.find?]
  · have h1 : (frame == g) = false := by simp [Ne.symm hg]
    rw [List.find?_cons, h1, if_neg hg]
    congr 1
    induction tm with
    | nil => rfl
    | cons e tl ih =>
      by_cases hei : e.1 = frame
      · have b1 : (e.1 != frame) = false := by simp [hei]
        have b2 : (e.1 == g) = false := by simp [hei, Ne.symm hg]
        rw [List.filter_cons, b1, if_neg (by simp), List.find?_cons, b2, ih]
      · have b1 : (e.1 != frame) = true := by simp [hei]
        rw [List.filter_cons, b1, if_pos rfl, List.find?_cons, List.find?_cons]
        by_cases hej : e.1 = g
        · have b2 : (e.1 == g) = true := by simp [hej]
          rw [b2]
        · have b2 : (e.1 == g) = false := by simp [hej]
          rw [b2, ih]

/-- A page set (paging.h:245-250). -/
structure Pageset where
  pml4_physical : Nat
  pml4 : Nat → PML4Entry
  table_map : TableMap
  kernel : Bool

/-- `paging_linear64_t` index extraction (paging.h:184-194): bits 39-47. -/
def pml4_index (lin : Nat) : Nat := lin / 2 ^ 39 % 512

/-- Bits 30-38 of a linear address. -/
def pdpt_index (lin : Nat) : Nat := lin / 2 ^ 30 % 512

/-- Bits 21-29 of a linear address. -/
def pd_index (lin : Nat) : Nat := lin / 2 ^ 21 % 512

/-- Bits 12-20 of a linear address. -/
def pt_index (lin : Nat) : Nat := lin / 2 ^ 12 % 512

/-- `paging_create_pageset` (src/kernel/paging.c:381-405): allocate a PML4
page, zero the lower half, copy the kernel PML4's upper half.  `none` when
the allocation fails. -/
def paging_create_pageset (kernel_ps : Pageset) (supply : List Nat) :
    Option (Pageset × List Nat) :=
  match supply with
  | [] => none
  | f :: rest =>
    some ({ pml4_physical := f
            pml4 := fun i => if i < 256 then {} else kernel_ps.pml4 i
            table_map := []
            kernel := false }, rest)

/-- The entry at which `paging_get_entry_pointers` stopped. -/
inductive ResolvedEntry where
  | at1G (e : PdptEntry)
  | at2M (e : PdEntry)
  | at4K (e : PtEntry)
deriving Repr

/-- `paging_get_entry_pointers` (src/kernel/paging.c:254-317): walk
PML4 → PDPT → PD → PT, stopping at a huge page; `none` when an entry is not
present (or when a `DEBUG_ASSERT`ed table-map lookup fails — a fatal
assertion in the source, unreachable on well-formed pagesets). -/
def paging_get_entry_pointers (ps : Pageset) (lin : Nat) : Option ResolvedEntry :=
  let pml4e := ps.pml4 (pml4_index lin)
  if pml4e.present = false then none
  else
    match tmGet ps.table_map pml4e.pdpt_physical with
    | some (.pdpt t) =>
      let pdpte := t (pdpt_index lin)
      if pdpte.present = false then none
      else if pdpte.page_size then some (.at1G pdpte)
      else
        match tmGet ps.table_map pdpte.phys with
        | some (.pd t2) =>
          let pde := t2 (pd_index lin)
          if pde.present = false then none
          else if pde.page_size then some (.at2M pde)
          else
            match tmGet ps.table_map pde.phys with
            | some (.pt t3) =>
              let pte := t3 (pt_index lin)
              if pte.present then some (.at4K pte) else none
            | _ => none
        | _ => none
    | _ => none

/-- `paging_resolve_linear_address` (src/kernel/paging.c:319-362): reroute
higher-half queries (`prefix == 0xffff` and not already the kernel pageset)
to the kernel pageset, then compose the physical address from the entry the
walk stopped at. -/
def paging_resolve_linear_address (kernel_ps ps : Pageset) (lin : Nat) :
    Option Nat :=
  let ps := if lin / 2 ^ 48 % 2 ^ 16 = 0xffff ∧ ps.kernel = false then kernel_ps else ps
  match paging_get_entry_pointers ps lin with
  | some (.at4K e) => some (e.page_physical <<< 12 ||| lin % 2 ^ 12)
  | some (.at2M e) => some (e.phys <<< 21 ||| lin % 2 ^ 21)
  | some (.at1G e) => some (e.phys <<< 30 ||| lin % 2 ^ 30)
  | none => none

/-- State of the map walker (src/kernel/paging.c:498-511). -/
structure MapState where
  pageset : Pageset
  supply : List Nat
  linear : Nat
  physical : Nat
  mapped : Nat
  requested : Nat
  flags : Nat
  error : Bool

/-- `__paging_map_pt` (src/kernel/paging.c:754-800): map 4 KiB pages into the
PT at frame `ptf`.  A present entry is a refusal (double map); otherwise the
entry is cleared and written with the page frame and leaf flags, and the
cursor advances one page.  The C loop counts a local `index` from the
starting PT index up to 512; here `count` is the remaining iteration budget
`512 - index`, decreasing structurally.  The table is read through the table
map each iteration (the C code caches the pointer the caller looked up; with
distinctly keyed maps the two coincide); a failed lookup corresponds to the
caller's asserted lookup having failed (fatal in C). -/
def paging_map_pt_loop (ptf : Nat) : MapState → Nat → MapState
  | st, 0 => st
  | st, count + 1 =>
    if st.error = false ∧ st.mapped < st.requested then
      match tmGet st.pageset.table_map ptf with
      | some (.pt t) =>
        let i := pt_index st.linear
        if (t i).present then { st with error := true }
        else
          let e2 : PtEntry :=
            { present := true
              writable := st.flags &&& PAGING_READONLY == 0
              user := !(st.flags &&& PAGING_USER == 0)
              page_physical := st.physical / 2 ^ 12 % 2 ^ 40 }
          paging_map_pt_loop ptf
            { st with
              pageset :=
                { st.pageset with
                  table_map := tmSet st.pageset.table_map ptf
                    (.pt (fun j => if j = i then e2 else t j)) }
              mapped := st.mapped + 1
              linear := u64add st.linear 0x1000
              physical := u64add st.physical 0x1000 }
            count
      | _ => { st with error := true }
    else st

/-- `__paging_map_pd` (src/kernel/paging.c:685-752): ensure a PT exists under
the PD entry (allocate, zero, link with permissive intermediate flags and
record it in the table map — or refuse if the entry is a 2 MiB page), then
descend.  `count` is the remaining iteration budget `512 - index`. -/
def paging_map_pd_loop (pdf : Nat) : MapState → Nat → MapState
  | st, 0 => st
  | st, count + 1 =>
    if st.error = false ∧ st.mapped < st.requested then
      match tmGet st.pageset.table_map pdf with
      | some (.pd t) =>
        let i := pd_index st.linear
        let e := t i
        if e.present = false then
          match st.supply with
          | [] => { st with error := true }
          | f :: rest =>
            let e2 : PdEntry :=
              { present := true, writable := true, user := true
                page_size := false, phys := f % 2 ^ 40 }
            let tm := tmSet st.pageset.table_map pdf
              (.pd (fun j => if j = i then e2 else t j))
            let tm := tmSet tm f (.pt (fun _ => {}))
            let st1 :=
              { st with pageset := { st.pageset with table_map := tm }, supply := rest }
            let st2 := paging_map_pt_loop f st1 (512 - pt_index st1.linear)
            paging_map_pd_loop pdf st2 count
        else if e.page_size then { st with error := true }
        else
          let st2 := paging_map_pt_loop e.phys st (512 - pt_index st.linear)
          paging_map_pd_loop pdf st2 count
      | _ => { st with error := true }
    else st

/-- `__paging_map_pdpt` (src/kernel/paging.c:615-683), same shape one level
up (1 GiB pages refused). -/
def paging_map_pdpt_loop (pdptf : Nat) : MapState → Nat → MapState
  | st, 0 => st
  | st, count + 1 =>
    if st.error = false ∧ st.mapped < st.requested then
      match tmGet st.pageset.table_map pdptf with
      | some (.pdpt t) =>
        let i := pdpt_index st.linear
        let e := t i
        if e.present = false then
          match st.supply with
          | [] => { st with error := true }
          | f :: rest =>
            let e2 : PdptEntry :=
              { present := true, writable := true, user := true
                page_size := false, phys := f % 2 ^ 40 }
            let tm := tmSet st.pageset.table_map pdptf
              (.pdpt (fun j => if j = i then e2 else t j))
            let tm := tmSet tm f (.pd (fun _ => {}))
            let st1 :=
              { st with pageset := { st.pageset with table_map := tm }, supply := rest }
            let st2 := paging_map_pd_loop f st1 (512 - pd_index st1.linear)
            paging_map_pdpt_loop pdptf st2 count
        else if e.page_size then { st with error := true }
        else
          let st2 := paging_map_pd_loop e.phys st (512 - pd_index st.linear)
          paging_map_pdpt_loop pdptf st2 count
      | _ => { st with error := true }
    else st

/-- `__paging_map_pml4` (src/kernel/paging.c:540-613): like the inner levels
but reading the pageset's PML4 directly, and confined to the lower half
(`max_index = 255`) unless this is the kernel pageset; `count` is
`max_index + 1 - index`. -/
def paging_map_pml4_loop : MapState → Nat → MapState
  | st, 0 => st
  | st, count + 1 =>
    if st.error = false ∧ st.mapped < st.requested then
      let i := pml4_index st.linear
      let e := st.pageset.pml4 i
      if e.present = false then
        match st.supply with
        | [] => { st with error := true }
        | f :: rest =>
          let e2 : PML4Entry :=
            { present := true, writable := true, user := true
              pdpt_physical := f % 2 ^ 40 }
          let ps :=
            { st.pageset with
              pml4 := fun j => if j = i then e2 else st.pageset.pml4 j
              table_map := tmSet st.pageset.table_map f (.pdpt (fun _ => {})) }
          let st1 := { st with pageset := ps, supply := rest }
          let st2 := paging_map_pdpt_loop f st1 (512 - pdpt_index st1.linear)
          paging_map_pml4_loop st2 count
      else
        let st2 := paging_map_pdpt_loop e.pdpt_physical st (512 - pdpt_index st.linear)
        paging_map_pml4_loop st2 count
    else st

/-- `paging_map` (src/kernel/paging.c:522-538): initialise the walker state
and run it from the PML4 level; returns the number of pages mapped together
with the final state (whose `pageset` and `supply` the caller keeps). -/
def paging_map (ps : Pageset) (supply : List Nat)
    (linear_address physical_address pages flags : Nat) : Nat × MapState :=
  let st : MapState :=
    { pageset := ps, supply := supply, linear := linear_address
      physical := physical_address, mapped := 0, requested := pages
      flags := flags, error := false }
  let st := paging_map_pml4_loop st
    ((if ps.kernel then 512 else 256) - pml4_index linear_address)
  (st.mapped, st)

/-! ### Pageset destruction (src/kernel/paging.c:417-496)

The destroy walk visits every present lower-half intermediate table and
passes it to `memory_free` — which does nothing (src/kernel/memory.c:195-201)
— then clears the table map.  The walk loops are written with an explicit
remaining-entry count for structural recursion; the pointer argument of
`memory_free` is the table's linear alias, which the no-op ignores. -/

/-- `__paging_destroy_pageset_pt` (src/kernel/paging.c:493-496). -/
def paging_destroy_pt (_t : Nat → PtEntry) (mem : HeapSt) : HeapSt :=
  memory_free 0 mem

/-- Loop of `__paging_destroy_pageset_pd` (src/kernel/paging.c:477-488):
process `count` entries of the PD starting at index `i`; a failed asserted
lookup is fatal in the source (modelled as skipping the entry). -/
def paging_destroy_pd_loop (ps : Pageset) (t : Nat → PdEntry) :
    Nat → Nat → HeapSt → HeapSt
  | _, 0, mem => mem
  | i, count + 1, mem =>
    let mem :=
      if (t i).present ∧ (t i).page_size = false then
        match tmGet ps.table_map (t i).phys with
        | some (.pt t3) => paging_destroy_pt t3 mem
        | _ => mem
      else mem
    paging_destroy_pd_loop ps t (i + 1) count mem

/-- `__paging_destroy_pageset_pd` (src/kernel/paging.c:474-491). -/
def paging_destroy_pd (ps : Pageset) (t : Nat → PdEntry) (mem : HeapSt) : HeapSt :=
  memory_free 0 (paging_destroy_pd_loop ps t 0 512 mem)

/-- Loop of `__paging_destroy_pageset_pdpt` (src/kernel/paging.c:458-469). -/
def paging_destroy_pdpt_loop (ps : Pageset) (t : Nat → PdptEntry) :
    Nat → Nat → HeapSt → HeapSt
  | _, 0, mem => mem
  | i, count + 1, mem =>
    let mem :=
      if (t i).present ∧ (t i).page_size = false then
        match tmGet ps.table_map (t i).phys with
        | some (.pd t2) => paging_destroy_pd ps t2 mem
        | _ => mem
      else mem
    paging_destroy_pdpt_loop ps t (i + 1) count mem

/-- `__paging_destroy_pageset_pdpt` (src/kernel/paging.c:455-472). -/
def paging_destroy_pdpt (ps : Pageset) (t : Nat → PdptEntry) (mem : HeapSt) : HeapSt :=
  memory_free 0 (paging_destroy_pdpt_loop ps t 0 512 mem)

/-- Loop of `__paging_destroy_pageset_pml4` (src/kernel/paging.c:436-450):
only the lower half (`PAGING_PML4_HALF = 256` entries) is walked — the upper
half belongs to the kernel. -/
def paging_destroy_pml4_loop (ps : Pageset) :
    Nat → Nat → HeapSt → HeapSt
  | _, 0, mem => mem
  | i, count + 1, mem =>
    let mem :=
      if (ps.pml4 i).present then
        match tmGet ps.table_map (ps.pml4 i).pdpt_physical with
        | some (.pdpt t) => paging_destroy_pdpt ps t mem
        | _ => mem
      else mem
    paging_destroy_pml4_loop ps (i + 1) count mem

/-- `__paging_destroy_pageset_pml4` (src/kernel/paging.c:436-453): walk the
lower half, then `memory_free(pageset->pml4)`. -/
def paging_destroy_pml4 (ps : Pageset) (mem : HeapSt) : HeapSt :=
  memory_free ps.pml4_physical (paging_destroy_pml4_loop ps 0 256 mem)

/-- `paging_destroy_pageset` (src/kernel/paging.c:417-434): refuse the kernel
pageset; otherwise free every lower-half intermediate table (a no-op) and
clear the table map (`paging_phy_lin_map_clear`, which frees the map nodes —
also a no-op — and resets the tree). -/
def paging_destroy_pageset (ps : Pageset) (mem : HeapSt) :
    Bool × Pageset × HeapSt :=
  if ps.kernel = false then
    let mem := paging_destroy_pml4 ps mem
    (true, { ps with table_map := [] }, mem)
  else (false, ps, mem)

theorem paging_destroy_pd_loop_mem (ps : Pageset) (t : Nat → PdEntry) :
    ∀ (count i : Nat) (mem : HeapSt),
      paging_destroy_pd_loop ps t i count mem = mem := by
  intro count
  induction count with
  | zero => intro i mem; rfl
  | succ count ih =>
    intro i mem
    unfold paging_destroy_pd_loop
    rw [ih]
    split
    · split <;> rfl
    · rfl

theorem paging_destroy_pdpt_loop_mem (ps : Pageset) (t : Nat → PdptEntry) :
    ∀ (count i : Nat) (mem : HeapSt),
      paging_destroy_pdpt_loop ps t i count mem = mem := by
  intro count
  induction count with
  | zero => intro i mem; rfl
  | succ count ih =>
    intro i mem
    unfold paging_destroy_pdpt_loop
    rw [ih]
    split
    · split
      · unfold paging_destroy_pd memory_free
        rw [paging_destroy_pd_loop_mem]
      · rfl
    · rfl

theorem paging_destroy_pml4_loop_mem (ps : Pageset) :
    ∀ (count i : Nat) (mem : HeapSt),
      paging_destroy_pml4_loop ps i count mem = mem := by
  intro count
  induction count with
  | zero => intro i mem; rfl
  | succ count ih =>
    intro i mem
    unfold paging_destroy_pml4_loop
    rw [ih]
    split
    · split
      · unfold paging_destroy_pdpt memory_free
        rw [paging_destroy_pdpt_loop_mem]
      · rfl
    · rfl

/-- Claim C6 (amended): `paging_destroy_pageset` on the kernel page set
returns false and changes nothing; on any other page set it returns true,
walks every lower-half intermediate table passing each to `memory_free`, and
clears the table map — but `memory_free` is a no-op by design, so the
allocator state is left exactly as it was: no frame or heap space consumed
for intermediate tables is released, and available memory does not return to
its value from before the page set was created and populated. -/
theorem C6_amended_destroy_is_noop_on_memory (ps : Pageset) (mem : HeapSt) :
    paging_destroy_pageset ps mem =
      if ps.kernel then (false, ps, mem)
      else (true, { ps with table_map := [] }, mem) := by
  unfold paging_destroy_pageset paging_destroy_pml4 memory_free
  rw [paging_destroy_pml4_loop_mem]
  cases h : ps.kernel <;> simp [h]

/-- The kernel pageset and a small heap for the C6 counterexample run. -/
def c6_kps : Pageset :=
  { pml4_physical := 0, pml4 := fun _ => {}, table_map := [], kernel := true }

def c6_heap0 : HeapSt :=
  { heap_start := 0, heap_end := 2 ^ 20, heap_length := 0
    large_enabled := false, grow_enabled := false, fr := fr_empty }

/-- Four successful `memory_alloc_aligned(4096, 4096)` calls — the
allocations `__paging_alloc_page_phy_lin` performs for the PML4 page and the
three intermediate tables of a one-page mapping. -/
def c6_heap_chain : Option HeapSt := do
  let r1 ← memory_alloc_aligned 4096 4096 c6_heap0
  let _ ← r1.1
  let r2 ← memory_alloc_aligned 4096 4096 r1.2
  let _ ← r2.1
  let r3 ← memory_alloc_aligned 4096 4096 r2.2
  let _ ← r3.1
  let r4 ← memory_alloc_aligned 4096 4096 r3.2
  let _ ← r4.1
  return r4.2

/-- Create a fresh pageset from frames 11-14 and map one page. -/
def c6_pageset_run : Option (Nat × Pageset) := do
  let (ps0, sup) ← paging_create_pageset c6_kps [11, 12, 13, 14]
  let r := paging_map ps0 sup 4096 28672 1 0
  return (r.1, r.2.pageset)

/-- Claim C6 (counterexample): creating and populating a page set consumed
16 KiB of kernel heap for the PML4 and the three intermediate tables (the
heap length went from 0 to 16384); `paging_destroy_pageset` on the populated
page set returns true but leaves the allocator state byte-for-byte unchanged
(heap length still 16384) — the counted round-trip claimed by the spec does
not happen, because the frees in the destroy walk are no-ops. -/
theorem C6_counterexample :
    c6_heap0.heap_length = 0 ∧
    c6_heap_chain.map (fun h => h.heap_length) = some 16384 ∧
    c6_pageset_run.map (fun r => r.1) = some 1 ∧
    c6_pageset_run.map (fun r =>
      ((paging_destroy_pageset r.2 (c6_heap_chain.getD c6_heap0)).1,
        (paging_destroy_pageset r.2 (c6_heap_chain.getD c6_heap0)).2.2.heap_length)) =
      some (true, 16384) := by
  refine ⟨rfl, by decide, by decide, ?_⟩
  set_option maxRecDepth 10000 in decide

/-! ### Mapping a page into a fresh pageset (claims C4, C5)

Step lemmas unfolding one iteration of each walker loop, then a full
characterization of `create` followed by `map` of a single page. -/

theorem pt_index_lt (lin : Nat) : pt_index lin < 512 := Nat.mod_lt _ (by norm_num)

theorem pd_index_lt (lin : Nat) : pd_index lin < 512 := Nat.mod_lt _ (by norm_num)

theorem pdpt_index_lt (lin : Nat) : pdpt_index lin < 512 := Nat.mod_lt _ (by norm_num)

theorem pml4_index_le_255 {lin : Nat} (h : lin < 2 ^ 47) : pml4_index lin ≤ 255 := by
  unfold pml4_index
  have : lin / 2 ^ 39 < 256 := by omega
  omega

theorem paging_map_pt_loop_exit (ptf : Nat) (st : MapState) (c : Nat)
    (h : ¬(st.error = false ∧ st.mapped < st.requested)) :
    paging_map_pt_loop ptf st c = st := by
  cases c with
  | zero => rfl
  | succ c => rw [paging_map_pt_loop, if_neg h]

theorem paging_map_pd_loop_exit (pdf : Nat) (st : MapState) (c : Nat)
    (h : ¬(st.error = false ∧ st.mapped < st.requested)) :
    paging_map_pd_loop pdf st c = st := by
  cases c with
  | zero => rfl
  | succ c => rw [paging_map_pd_loop, if_neg h]

theorem paging_map_pdpt_loop_exit (pdptf : Nat) (st : MapState) (c : Nat)
    (h : ¬(st.error = false ∧ st.mapped < st.requested)) :
    paging_map_pdpt_loop pdptf st c = st := by
  cases c with
  | zero => rfl
  | succ c => rw [paging_map_pdpt_loop, if_neg h]

theorem paging_map_pml4_loop_exit (st : MapState) (c : Nat)
    (h : ¬(st.error = false ∧ st.mapped < st.requested)) :
    paging_map_pml4_loop st c = st := by
  cases c with
  | zero => rfl
  | succ c => rw [paging_map_pml4_loop, if_neg h]

theorem paging_map_pt_loop_write (ptf : Nat) (st : MapState) (c : Nat)
    (t : Nat → PtEntry)
    (hg : st.error = false ∧ st.mapped < st.requested)
    (ht : tmGet st.pageset.table_map ptf = some (.pt t))
    (hp : (t (pt_index st.linear)).present = false) :
    paging_map_pt_loop ptf st (c + 1) =
      paging_map_pt_loop ptf
        { st with
          pageset :=
            { st.pageset with
              table_map := tmSet st.pageset.table_map ptf
                (.pt (fun j => if j = pt_index st.linear then
                  { present := true
                    writable := st.flags &&& PAGING_READONLY == 0
                    user := !(st.flags &&& PAGING_USER == 0)
                    page_physical := st.physical / 2 ^ 12 % 2 ^ 40 }
                  else t j)) }
          mapped := st.mapped + 1
          linear := u64add st.linear 0x1000
          physical := u64add st.physical 0x1000 } c := by
  conv_lhs => rw [paging_map_pt_loop]
  rw [if_pos hg, ht]
  dsimp only
  rw [if_neg (by simp [hp])]

theorem paging_map_pt_loop_present (ptf : Nat) (st : MapState) (c : Nat)
    (t : Nat → PtEntry)
    (hg : st.error = false ∧ st.mapped < st.requested)
    (ht : tmGet st.pageset.table_map ptf = some (.pt t))
    (hp : (t (pt_index st.linear)).present = true) :
    paging_map_pt_loop ptf st (c + 1) = { st with error := true } := by
  conv_lhs => rw [paging_map_pt_loop]
  rw [if_pos hg, ht]
  dsimp only
  rw [if_pos (by simp [hp])]

theorem paging_map_pd_loop_alloc (pdf : Nat) (st : MapState) (c : Nat)
    (t : Nat → PdEntry) (f : Nat) (rest : List Nat)
    (hg : st.error = false ∧ st.mapped < st.requested)
    (ht : tmGet st.pageset.table_map pdf = some (.pd t))
    (hp : (t (pd_index st.linear)).present = false)
    (hs : st.supply = f :: rest) :
    paging_map_pd_loop pdf st (c + 1) =
      paging_map_pd_loop pdf
        (paging_map_pt_loop f
          { st with
            pageset :=
              { st.pageset with
                table_map := tmSet
                  (tmSet st.pageset.table_map pdf
                    (.pd (fun j => if j = pd_index st.linear then
                      { present := true, writable := true, user := true
                        page_size := false, phys := f % 2 ^ 40 }
                      else t j)))
                  f (.pt (fun _ => {})) }
            supply := rest }
          (512 - pt_index st.linear)) c := by
  conv_lhs => rw [paging_map_pd_loop]
  rw [if_pos hg, ht]
  dsimp only
  rw [hp, hs]
  rfl

theorem paging_map_pd_loop_present (pdf : Nat) (st : MapState) (c : Nat)
    (t : Nat → PdEntry)
    (hg : st.error = false ∧ st.mapped < st.requested)
    (ht : tmGet st.pageset.table_map pdf = some (.pd t))
    (hp : (t (pd_index st.linear)).present = true)
    (hps : (t (pd_index st.linear)).page_size = false) :
    paging_map_pd_loop pdf st (c + 1) =
      paging_map_pd_loop pdf
        (paging_map_pt_loop (t (pd_index st.linear)).phys st
          (512 - pt_index st.linear)) c := by
  conv_lhs => rw [paging_map_pd_loop]
  rw [if_pos hg, ht]
  dsimp only
  rw [hp, hps]
  rfl

theorem paging_map_pd_loop_huge (pdf : Nat) (st : MapState) (c : Nat)
    (t : Nat → PdEntry)
    (hg : st.error = false ∧ st.mapped < st.requested)
    (ht : tmGet st.pageset.table_map pdf = some (.pd t))
    (hp : (t (pd_index st.linear)).present = true)
    (hps : (t (pd_index st.linear)).page_size = true) :
    paging_map_pd_loop pdf st (c + 1) = { st with error := true } := by
  conv_lhs => rw [paging_map_pd_loop]
  rw [if_pos hg, ht]
  dsimp only
  rw [hp, hps]
  rfl

theorem paging_map_pd_loop_oom (pdf : Nat) (st : MapState) (c : Nat)
    (t : Nat → PdEntry)
    (hg : st.error = false ∧ st.mapped < st.requested)
    (ht : tmGet st.pageset.table_map pdf = some (.pd t))
    (hp : (t (pd_index st.linear)).present = false)
    (hs : st.supply = []) :
    paging_map_pd_loop pdf st (c + 1) = { st with error := true } := by
  conv_lhs => rw [paging_map_pd_loop]
  rw [if_pos hg, ht]
  dsimp only
  rw [hp, hs]
  rfl

theorem paging_map_pdpt_loop_alloc (pdptf : Nat) (st : MapState) (c : Nat)
    (t : Nat → PdptEntry) (f : Nat) (rest : List Nat)
    (hg : st.error = false ∧ st.mapped < st.requested)
    (ht : tmGet st.pageset.table_map pdptf = some (.pdpt t))
    (hp : (t (pdpt_index st.linear)).present = false)
    (hs : st.supply = f :: rest) :
    paging_map_pdpt_loop pdptf st (c + 1) =
      paging_map_pdpt_loop pdptf
        (paging_map_pd_loop f
          { st with
            pageset :=
              { st.pageset with
                table_map := tmSet
                  (tmSet st.pageset.table_map pdptf
                    (.pdpt (fun j => if j = pdpt_index st.linear then
                      { present := true, writable := true, user := true
                        page_size := false, phys := f % 2 ^ 40 }
                      else t j)))
                  f (.pd (fun _ => {})) }
            supply := rest }
          (512 - pd_index st.linear)) c := by
  conv_lhs => rw [paging_map_pdpt_loop]
  rw [if_pos hg, ht]
  dsimp only
  rw [hp, hs]
  rfl

theorem paging_map_pdpt_loop_present (pdptf : Nat) (st : MapState) (c : Nat)
    (t : Nat → PdptEntry)
    (hg : st.error = false ∧ st.mapped < st.requested)
    (ht : tmGet st.pageset.table_map pdptf = some (.pdpt t))
    (hp : (t (pdpt_index st.linear)).present = true)
    (hps : (t (pdpt_index st.linear)).page_size = false) :
    paging_map_pdpt_loop pdptf st (c + 1) =
      paging_map_pdpt_loop pdptf
        (paging_map_pd_loop (t (pdpt_index st.linear)).phys st
          (512 - pd_index st.linear)) c := by
  conv_lhs => rw [paging_map_pdpt_loop]
  rw [if_pos hg, ht]
  dsimp only
  rw [hp, hps]
  rfl

theorem paging_map_pdpt_loop_huge (pdptf : Nat) (st : MapState) (c : Nat)
    (t : Nat → PdptEntry)
    (hg : st.error = false ∧ st.mapped < st.requested)
    (ht : tmGet st.pageset.table_map pdptf = some (.pdpt t))
    (hp : (t (pdpt_index st.linear)).present = true)
    (hps : (t (pdpt_index st.linear)).page_size = true) :
    paging_map_pdpt_loop pdptf st (c + 1) = { st with error := true } := by
  conv_lhs => rw [paging_map_pdpt_loop]
  rw [if_pos hg, ht]
  dsimp only
  rw [hp, hps]
  rfl

theorem paging_map_pdpt_loop_oom (pdptf : Nat) (st : MapState) (c : Nat)
    (t : Nat → PdptEntry)
    (hg : st.error = false ∧ st.mapped < st.requested)
    (ht : tmGet st.pageset.table_map pdptf = some (.pdpt t))
    (hp : (t (pdpt_index st.linear)).present = false)
    (hs : st.supply = []) :
    paging_map_pdpt_loop pdptf st (c + 1) = { st with error := true } := by
  conv_lhs => rw [paging_map_pdpt_loop]
  rw [if_pos hg, ht]
  dsimp only
  rw [hp, hs]
  rfl

theorem paging_map_pml4_loop_alloc (st : MapState) (c : Nat)
    (f : Nat) (rest : List Nat)
    (hg : st.error = false ∧ st.mapped < st.requested)
    (hp : (st.pageset.pml4 (pml4_index st.linear)).present = false)
    (hs : st.supply = f :: rest) :
    paging_map_pml4_loop st (c + 1) =
      paging_map_pml4_loop
        (paging_map_pdpt_loop f
          { st with
            pageset :=
              { st.pageset with
                pml4 := fun j => if j = pml4_index st.linear then
                    { present := true, writable := true, user := true
                      pdpt_physical := f % 2 ^ 40 }
                  else st.pageset.pml4 j
                table_map := tmSet st.pageset.table_map f (.pdpt (fun _ => {})) }
            supply := rest }
          (512 - pdpt_index st.linear)) c := by
  conv_lhs => rw [paging_map_pml4_loop]
  rw [if_pos hg]
  dsimp only
  rw [hp, hs]
  rfl

theorem paging_map_pml4_loop_present (st : MapState) (c : Nat)
    (hg : st.error = false ∧ st.mapped < st.requested)
    (hp : (st.pageset.pml4 (pml4_index st.linear)).present = true) :
    paging_map_pml4_loop st (c + 1) =
      paging_map_pml4_loop
        (paging_map_pdpt_loop (st.pageset.pml4 (pml4_index st.linear)).pdpt_physical
          st (512 - pdpt_index st.linear)) c := by
  conv_lhs => rw [paging_map_pml4_loop]
  rw [if_pos hg]
  dsimp only
  rw [hp]
  rfl

theorem paging_map_pml4_loop_oom (st : MapState) (c : Nat)
    (hg : st.error = false ∧ st.mapped < st.requested)
    (hp : (st.pageset.pml4 (pml4_index st.linear)).present = false)
    (hs : st.supply = []) :
    paging_map_pml4_loop st (c + 1) = { st with error := true } := by
  conv_lhs => rw [paging_map_pml4_loop]
  rw [if_pos hg]
  dsimp only
  rw [hp, hs]
  rfl

/-- The pageset `paging_create_pageset` builds (src/kernel/paging.c:381-405):
a fresh PML4 frame, lower half zeroed, upper half aliasing the kernel
PML4. -/
def fresh_pageset (kps : Pageset) (f0 : Nat) : Pageset :=
  { pml4_physical := f0
    pml4 := fun i => if i < 256 then {} else kps.pml4 i
    table_map := []
    kernel := false }

theorem create_pageset_eq (kps : Pageset) (f0 : Nat) (rest : List Nat) :
    paging_create_pageset kps (f0 :: rest) = some (fresh_pageset kps f0, rest) := rfl

/-- Walker start state for mapping one page into a fresh pageset. -/
def fmap_st0 (kps : Pageset) (f0 f1 f2 f3 : Nat) (rest : List Nat)
    (lin phys flags : Nat) : MapState :=
  { pageset := fresh_pageset kps f0
    supply := f1 :: f2 :: f3 :: rest
    linear := lin, physical := phys, mapped := 0, requested := 1
    flags := flags, error := false }

/-- The PML4 after the walker links a PDPT at frame `f1`. -/
def fmap_pml4 (kps : Pageset) (f1 lin : Nat) : Nat → PML4Entry :=
  fun j => if j = pml4_index lin then
      { present := true, writable := true, user := true
        pdpt_physical := f1 % 2 ^ 40 }
    else if j < 256 then {} else kps.pml4 j

def fmap_tm1 (f1 : Nat) : TableMap := tmSet [] f1 (.pdpt (fun _ => {}))

def fmap_st1 (kps : Pageset) (f0 f1 f2 f3 : Nat) (rest : List Nat)
    (lin phys flags : Nat) : MapState :=
  { pageset :=
      { pml4_physical := f0, pml4 := fmap_pml4 kps f1 lin
        table_map := fmap_tm1 f1, kernel := false }
    supply := f2 :: f3 :: rest
    linear := lin, physical := phys, mapped := 0, requested := 1
    flags := flags, error := false }

/-- The PDPT at `f1` after the walker links a PD at frame `f2`. -/
def fmap_pdptT (f2 lin : Nat) : Nat → PdptEntry :=
  fun j => if j = pdpt_index lin then
      { present := true, writable := true, user := true
        page_size := false, phys := f2 % 2 ^ 40 }
    else {}

def fmap_tm2 (f1 f2 lin : Nat) : TableMap :=
  tmSet (tmSet (fmap_tm1 f1) f1 (.pdpt (fmap_pdptT f2 lin))) f2 (.pd (fun _ => {}))

def fmap_st2 (kps : Pageset) (f0 f1 f2 f3 : Nat) (rest : List Nat)
    (lin phys flags : Nat) : MapState :=
  { pageset :=
      { pml4_physical := f0, pml4 := fmap_pml4 kps f1 lin
        table_map := fmap_tm2 f1 f2 lin, kernel := false }
    supply := f3 :: rest
    linear := lin, physical := phys, mapped := 0, requested := 1
    flags := flags, error := false }

/-- The PD at `f2` after the walker links a PT at frame `f3`. -/
def fmap_pdT (f3 lin : Nat) : Nat → PdEntry :=
  fun j => if j = pd_index lin then
      { present := true, writable := true, user := true
        page_size := false, phys := f3 % 2 ^ 40 }
    else {}

def fmap_tm3 (f1 f2 f3 lin : Nat) : TableMap :=
  tmSet (tmSet (fmap_tm2 f1 f2 lin) f2 (.pd (fmap_pdT f3 lin))) f3 (.pt (fun _ => {}))

def fmap_st3 (kps : Pageset) (f0 f1 f2 f3 : Nat) (rest : List Nat)
    (lin phys flags : Nat) : MapState :=
  { pageset :=
      { pml4_physical := f0, pml4 := fmap_pml4 kps f1 lin
        table_map := fmap_tm3 f1 f2 f3 lin, kernel := false }
    supply := rest
    linear := lin, physical := phys, mapped := 0, requested := 1
    flags := flags, error := false }

/-- The PT at `f3` after the leaf write. -/
def fmap_ptT (lin phys flags : Nat) : Nat → PtEntry :=
  fun j => if j = pt_index lin then
      { present := true
        writable := flags &&& PAGING_READONLY == 0
        user := !(flags &&& PAGING_USER == 0)
        page_physical := phys / 2 ^ 12 % 2 ^ 40 }
    else {}

def fmap_tm4 (f1 f2 f3 lin phys flags : Nat) : TableMap :=
  tmSet (fmap_tm3 f1 f2 f3 lin) f3 (.pt (fmap_ptT lin phys flags))

/-- Walker state after mapping one page into a fresh pageset: three
intermediate tables allocated and linked, one leaf entry written, cursor one
page further. -/
def fmap_final (kps : Pageset) (f0 f1 f2 f3 : Nat) (rest : List Nat)
    (lin phys flags : Nat) : MapState :=
  { pageset :=
      { pml4_physical := f0, pml4 := fmap_pml4 kps f1 lin
        table_map := fmap_tm4 f1 f2 f3 lin phys flags, kernel := false }
    supply := rest
    linear := u64add lin 0x1000, physical := u64add phys 0x1000
    mapped := 1, requested := 1, flags := flags, error := false }

/-- Characterization of `paging_map` of a single page on a freshly created
pageset with at least three allocatable frames: it returns 1 and the state
`fmap_final` (PML4 entry, PDPT, PD allocated and linked; leaf PT entry
written). -/
theorem map_one_fresh (kps : Pageset) (f0 f1 f2 f3 : Nat) (rest : List Nat)
    (lin phys flags : Nat) (hlin : lin < 2 ^ 47) :
    paging_map (fresh_pageset kps f0) (f1 :: f2 :: f3 :: rest) lin phys 1 flags =
      (1, fmap_final kps f0 f1 f2 f3 rest lin phys flags) := by
  have hi4 : pml4_index lin < 256 := by
    have := pml4_index_le_255 hlin
    omega
  have h1 : paging_map_pml4_loop (fmap_st0 kps f0 f1 f2 f3 rest lin phys flags)
      (255 - pml4_index lin + 1) =
      paging_map_pml4_loop
        (paging_map_pdpt_loop f1 (fmap_st1 kps f0 f1 f2 f3 rest lin phys flags)
          (512 - pdpt_index lin)) (255 - pml4_index lin) :=
    paging_map_pml4_loop_alloc _ _ f1 (f2 :: f3 :: rest) ⟨rfl, Nat.one_pos⟩
      (by simp [fmap_st0, fresh_pageset, hi4]) rfl
  have h2 : paging_map_pdpt_loop f1 (fmap_st1 kps f0 f1 f2 f3 rest lin phys flags)
      (511 - pdpt_index lin + 1) =
      paging_map_pdpt_loop f1
        (paging_map_pd_loop f2 (fmap_st2 kps f0 f1 f2 f3 rest lin phys flags)
          (512 - pd_index lin)) (511 - pdpt_index lin) :=
    paging_map_pdpt_loop_alloc f1 _ _ (fun _ => {}) f2 (f3 :: rest) ⟨rfl, Nat.one_pos⟩
      (by simp [fmap_st1, fmap_tm1, tmGet_tmSet]) rfl rfl
  have h3 : paging_map_pd_loop f2 (fmap_st2 kps f0 f1 f2 f3 rest lin phys flags)
      (511 - pd_index lin + 1) =
      paging_map_pd_loop f2
        (paging_map_pt_loop f3 (fmap_st3 kps f0 f1 f2 f3 rest lin phys flags)
          (512 - pt_index lin)) (511 - pd_index lin) :=
    paging_map_pd_loop_alloc f2 _ _ (fun _ => {}) f3 rest ⟨rfl, Nat.one_pos⟩
      (by simp [fmap_st2, fmap_tm2, tmGet_tmSet]) rfl rfl
  have h4 : paging_map_pt_loop f3 (fmap_st3 kps f0 f1 f2 f3 rest lin phys flags)
      (511 - pt_index lin + 1) =
      paging_map_pt_loop f3 (fmap_final kps f0 f1 f2 f3 rest lin phys flags)
        (511 - pt_index lin) :=
    paging_map_pt_loop_write f3 _ _ (fun _ => {}) ⟨rfl, Nat.one_pos⟩
      (by simp [fmap_st3, fmap_tm3, tmGet_tmSet]) rfl
  have h5 : paging_map_pt_loop f3 (fmap_final kps f0 f1 f2 f3 rest lin phys flags)
      (511 - pt_index lin) = fmap_final kps f0 f1 f2 f3 rest lin phys flags :=
    paging_map_pt_loop_exit f3 _ _ (by simp [fmap_final])
  have h6 : paging_map_pd_loop f2 (fmap_final kps f0 f1 f2 f3 rest lin phys flags)
      (511 - pd_index lin) = fmap_final kps f0 f1 f2 f3 rest lin phys flags :=
    paging_map_pd_loop_exit f2 _ _ (by simp [fmap_final])
  have h7 : paging_map_pdpt_loop f1 (fmap_final kps f0 f1 f2 f3 rest lin phys flags)
      (511 - pdpt_index lin) = fmap_final kps f0 f1 f2 f3 rest lin phys flags :=
    paging_map_pdpt_loop_exit f1 _ _ (by simp [fmap_final])
  have h8 : paging_map_pml4_loop (fmap_final kps f0 f1 f2 f3 rest lin phys flags)
      (255 - pml4_index lin) = fmap_final kps f0 f1 f2 f3 rest lin phys flags :=
    paging_map_pml4_loop_exit _ _ (by simp [fmap_final])
  have key : paging_map_pml4_loop (fmap_st0 kps f0 f1 f2 f3 rest lin phys flags)
      (256 - pml4_index lin) = fmap_final kps f0 f1 f2 f3 rest lin phys flags := by
    rw [show 256 - pml4_index lin = 255 - pml4_index lin + 1 from by omega]
    rw [h1]
    rw [show (512 : Nat) - pdpt_index lin = 511 - pdpt_index lin + 1 from by
      have := pdpt_index_lt lin; omega]
    rw [h2]
    rw [show (512 : Nat) - pd_index lin = 511 - pd_index lin + 1 from by
      have := pd_index_lt lin; omega]
    rw [h3]
    rw [show (512 : Nat) - pt_index lin = 511 - pt_index lin + 1 from by
      have := pt_index_lt lin; omega]
    rw [h4, h5, h6, h7, h8]
  calc paging_map (fresh_pageset kps f0) (f1 :: f2 :: f3 :: rest) lin phys 1 flags
      = ((paging_map_pml4_loop (fmap_st0 kps f0 f1 f2 f3 rest lin phys flags)
            (256 - pml4_index lin)).mapped,
         paging_map_pml4_loop (fmap_st0 kps f0 f1 f2 f3 rest lin phys flags)
            (256 - pml4_index lin)) := rfl
    _ = (1, fmap_final kps f0 f1 f2 f3 rest lin phys flags) := by
      rw [key]
      rfl

/-- **C4**: for every lower-half 4 KiB-aligned linear address `lin` and
4 KiB-aligned physical address `phys`: after `paging_create_pageset` succeeds
on a fresh pageset (its allocation yielding frame `f0`, with the allocator
then holding distinct frames `f1 f2 f3` for the intermediate tables — on a
fresh pageset `paging_map` can only return 1 by allocating all three levels,
so this is exactly the situation in which the claim's hypotheses hold) and
`paging_map(pageset, lin, phys, 1, 0)` returns 1,
`paging_resolve_linear_address(pageset, lin)` succeeds and yields exactly
`phys`.  The frame bounds reflect the 40-bit physical fields of the entry
formats; `phys < 2^52` is the architectural limit those fields impose on a
4 KiB frame address. -/
theorem C4_create_map_resolve (kps : Pageset) (f0 f1 f2 f3 : Nat)
    (rest : List Nat) (lin phys : Nat)
    (hlin : lin < 2 ^ 47) (hlin4 : lin % 4096 = 0)
    (hphys : phys < 2 ^ 52) (hphys4 : phys % 4096 = 0)
    (hf1 : f1 < 2 ^ 40) (hf2 : f2 < 2 ^ 40) (hf3 : f3 < 2 ^ 40)
    (h12 : f1 ≠ f2) (h13 : f1 ≠ f3) (h23 : f2 ≠ f3) :
    paging_create_pageset kps (f0 :: f1 :: f2 :: f3 :: rest) =
        some (fresh_pageset kps f0, f1 :: f2 :: f3 :: rest) ∧
      (paging_map (fresh_pageset kps f0) (f1 :: f2 :: f3 :: rest) lin phys 1 0).1 = 1 ∧
      paging_resolve_linear_address kps
        ((paging_map (fresh_pageset kps f0) (f1 :: f2 :: f3 :: rest) lin phys 1 0).2).pageset
        lin = some phys := by
  have m1 : f1 % 1099511627776 = f1 :=
    Nat.mod_eq_of_lt (by norm_num at hf1; exact hf1)
  have m2 : f2 % 1099511627776 = f2 :=
    Nat.mod_eq_of_lt (by norm_num at hf2; exact hf2)
  have m3 : f3 % 1099511627776 = f3 :=
    Nat.mod_eq_of_lt (by norm_num at hf3; exact hf3)
  refine ⟨rfl, ?_, ?_⟩
  · rw [map_one_fresh kps f0 f1 f2 f3 rest lin phys 0 hlin]
  · rw [map_one_fresh kps f0 f1 f2 f3 rest lin phys 0 hlin]
    have hres : paging_get_entry_pointers
        (fmap_final kps f0 f1 f2 f3 rest lin phys 0).pageset lin =
        some (.at4K { present := true
                      writable := 0 &&& PAGING_READONLY == 0
                      user := !(0 &&& PAGING_USER == 0)
                      page_physical := phys / 2 ^ 12 % 2 ^ 40 }) := by
      unfold paging_get_entry_pointers
      simp [fmap_final, fmap_pml4, fmap_tm4, fmap_tm3, fmap_tm2, fmap_tm1,
        fmap_ptT, fmap_pdT, fmap_pdptT, tmGet_tmSet, m1, m2, m3, h12, h13, h23]
    have hhi : ¬(lin / 2 ^ 48 % 2 ^ 16 = 0xffff ∧
        ((1, fmap_final kps f0 f1 f2 f3 rest lin phys 0).2.pageset).kernel = false) := by
      have h0 : lin / 2 ^ 48 = 0 := Nat.div_eq_of_lt (by omega)
      intro hc
      rw [h0] at hc
      exact absurd hc.1 (by decide)
    unfold paging_resolve_linear_address
    dsimp only
    rw [if_neg hhi]
    rw [show (1, fmap_final kps f0 f1 f2 f3 rest lin phys 0).2.pageset =
      (fmap_final kps f0 f1 f2 f3 rest lin phys 0).pageset from rfl]
    have e212 : (2 : Nat) ^ 12 = 4096 := by norm_num
    have hl0 : lin % 2 ^ 12 = 0 := by rw [e212]; exact hlin4
    have hp40 : phys / 2 ^ 12 % 2 ^ 40 = phys / 2 ^ 12 :=
      Nat.mod_eq_of_lt (by omega)
    have hpm : phys / 2 ^ 12 * 2 ^ 12 = phys :=
      Nat.div_mul_cancel (Nat.dvd_of_mod_eq_zero (by rw [e212]; exact hphys4))
    rw [hres]
    dsimp only
    rw [hp40, hl0, Nat.or_zero, Nat.shiftLeft_eq, hpm]

/-- Concrete run of **C4**: create from frames 11,12,13,14, map linear
0x1000 to physical 0x7000, resolve 0x1000 back to 0x7000. -/
theorem C4_witness :
    paging_resolve_linear_address c6_kps
      ((paging_map (fresh_pageset c6_kps 11) [12, 13, 14] 4096 28672 1 0).2).pageset
      4096 = some 28672 :=
  (C4_create_map_resolve c6_kps 11 12 13 14 [] 4096 28672 (by norm_num)
    (by norm_num) (by norm_num) (by norm_num) (by norm_num) (by norm_num)
    (by norm_num) (by decide) (by decide) (by decide)).2.2

/-- Start state of a second one-page map attempt at the same linear address,
on the pageset produced by the first map. -/
def fmap2_st0 (kps : Pageset) (f0 f1 f2 f3 : Nat) (rest : List Nat)
    (lin phys flags : Nat) (s2 : List Nat) (phys2 flags2 : Nat) : MapState :=
  { pageset := (fmap_final kps f0 f1 f2 f3 rest lin phys flags).pageset
    supply := s2
    linear := lin, physical := phys2, mapped := 0, requested := 1
    flags := flags2, error := false }

/-- A second one-page `paging_map` at the same linear address finds the leaf
PT entry present and refuses: it returns 0 with the walker state unchanged
except for the error flag — in particular the pageset (and so the original
leaf entry) is untouched. -/
theorem map_second_refused (kps : Pageset) (f0 f1 f2 f3 : Nat) (rest : List Nat)
    (lin phys flags : Nat) (s2 : List Nat) (phys2 flags2 : Nat)
    (hlin : lin < 2 ^ 47)
    (hf1 : f1 < 2 ^ 40) (hf2 : f2 < 2 ^ 40) (hf3 : f3 < 2 ^ 40)
    (h12 : f1 ≠ f2) (h13 : f1 ≠ f3) (h23 : f2 ≠ f3) :
    paging_map (fmap_final kps f0 f1 f2 f3 rest lin phys flags).pageset
      s2 lin phys2 1 flags2 =
      (0, { fmap2_st0 kps f0 f1 f2 f3 rest lin phys flags s2 phys2 flags2 with
            error := true }) := by
  have m1 : f1 % 1099511627776 = f1 :=
    Nat.mod_eq_of_lt (by norm_num at hf1; exact hf1)
  have m2 : f2 % 1099511627776 = f2 :=
    Nat.mod_eq_of_lt (by norm_num at hf2; exact hf2)
  have m3 : f3 % 1099511627776 = f3 :=
    Nat.mod_eq_of_lt (by norm_num at hf3; exact hf3)
  have h1 : paging_map_pml4_loop
      (fmap2_st0 kps f0 f1 f2 f3 rest lin phys flags s2 phys2 flags2)
      (255 - pml4_index lin + 1) =
      paging_map_pml4_loop
        (paging_map_pdpt_loop
          ((fmap_final kps f0 f1 f2 f3 rest lin phys flags).pageset.pml4
            (pml4_index lin)).pdpt_physical
          (fmap2_st0 kps f0 f1 f2 f3 rest lin phys flags s2 phys2 flags2)
          (512 - pdpt_index lin)) (255 - pml4_index lin) :=
    paging_map_pml4_loop_present _ _ ⟨rfl, Nat.one_pos⟩
      (by simp [fmap2_st0, fmap_final, fmap_pml4])
  have hphy1 : ((fmap_final kps f0 f1 f2 f3 rest lin phys flags).pageset.pml4
      (pml4_index lin)).pdpt_physical = f1 := by
    simp [fmap_final, fmap_pml4, m1]
  rw [hphy1] at h1
  have h2 : paging_map_pdpt_loop f1
      (fmap2_st0 kps f0 f1 f2 f3 rest lin phys flags s2 phys2 flags2)
      (511 - pdpt_index lin + 1) =
      paging_map_pdpt_loop f1
        (paging_map_pd_loop (fmap_pdptT f2 lin (pdpt_index lin)).phys
          (fmap2_st0 kps f0 f1 f2 f3 rest lin phys flags s2 phys2 flags2)
          (512 - pd_index lin)) (511 - pdpt_index lin) :=
    paging_map_pdpt_loop_present f1 _ _ (fmap_pdptT f2 lin) ⟨rfl, Nat.one_pos⟩
      (by simp [fmap2_st0, fmap_final, fmap_tm4, fmap_tm3, fmap_tm2, fmap_tm1,
        tmGet_tmSet, h12, h13])
      (by simp [fmap2_st0, fmap_pdptT]) (by simp [fmap2_st0, fmap_pdptT])
  have hphy2 : (fmap_pdptT f2 lin (pdpt_index lin)).phys = f2 := by
    simp [fmap_pdptT, m2]
  rw [hphy2] at h2
  have h3 : paging_map_pd_loop f2
      (fmap2_st0 kps f0 f1 f2 f3 rest lin phys flags s2 phys2 flags2)
      (511 - pd_index lin + 1) =
      paging_map_pd_loop f2
        (paging_map_pt_loop (fmap_pdT f3 lin (pd_index lin)).phys
          (fmap2_st0 kps f0 f1 f2 f3 rest lin phys flags s2 phys2 flags2)
          (512 - pt_index lin)) (511 - pd_index lin) :=
    paging_map_pd_loop_present f2 _ _ (fmap_pdT f3 lin) ⟨rfl, Nat.one_pos⟩
      (by simp [fmap2_st0, fmap_final, fmap_tm4, fmap_tm3, tmGet_tmSet, h23])
      (by simp [fmap2_st0, fmap_pdT]) (by simp [fmap2_st0, fmap_pdT])
  have hphy3 : (fmap_pdT f3 lin (pd_index lin)).phys = f3 := by
    simp [fmap_pdT, m3]
  rw [hphy3] at h3
  have h4 : paging_map_pt_loop f3
      (fmap2_st0 kps f0 f1 f2 f3 rest lin phys flags s2 phys2 flags2)
      (511 - pt_index lin + 1) =
      { fmap2_st0 kps f0 f1 f2 f3 rest lin phys flags s2 phys2 flags2 with
        error := true } :=
    paging_map_pt_loop_present f3 _ _ (fmap_ptT lin phys flags) ⟨rfl, Nat.one_pos⟩
      (by simp [fmap2_st0, fmap_final, fmap_tm4, tmGet_tmSet])
      (by simp [fmap2_st0, fmap_ptT])
  have h5 : paging_map_pd_loop f2
      ({ fmap2_st0 kps f0 f1 f2 f3 rest lin phys flags s2 phys2 flags2 with
         error := true }) (511 - pd_index lin) =
      { fmap2_st0 kps f0 f1 f2 f3 rest lin phys flags s2 phys2 flags2 with
        error := true } :=
    paging_map_pd_loop_exit f2 _ _ (by simp)
  have h6 : paging_map_pdpt_loop f1
      ({ fmap2_st0 kps f0 f1 f2 f3 rest lin phys flags s2 phys2 flags2 with
         error := true }) (511 - pdpt_index lin) =
      { fmap2_st0 kps f0 f1 f2 f3 rest lin phys flags s2 phys2 flags2 with
        error := true } :=
    paging_map_pdpt_loop_exit f1 _ _ (by simp)
  have h7 : paging_map_pml4_loop
      ({ fmap2_st0 kps f0 f1 f2 f3 rest lin phys flags s2 phys2 flags2 with
         error := true }) (255 - pml4_index lin) =
      { fmap2_st0 kps f0 f1 f2 f3 rest lin phys flags s2 phys2 flags2 with
        error := true } :=
    paging_map_pml4_loop_exit _ _ (by simp)
  calc paging_map (fmap_final kps f0 f1 f2 f3 rest lin phys flags).pageset
        s2 lin phys2 1 flags2
      = ((paging_map_pml4_loop
            (fmap2_st0 kps f0 f1 f2 f3 rest lin phys flags s2 phys2 flags2)
            (256 - pml4_index lin)).mapped,
         paging_map_pml4_loop
            (fmap2_st0 kps f0 f1 f2 f3 rest lin phys flags s2 phys2 flags2)
            (256 - pml4_index lin)) := rfl
    _ = (0, { fmap2_st0 kps f0 f1 f2 f3 rest lin phys flags s2 phys2 flags2 with
              error := true }) := by
        rw [show 256 - pml4_index lin = 255 - pml4_index lin + 1 from by
              have := pml4_index_le_255 hlin; omega, h1,
            show (512 : Nat) - pdpt_index lin = 511 - pdpt_index lin + 1 from by
              have := pdpt_index_lt lin; omega, h2,
            show (512 : Nat) - pd_index lin = 511 - pd_index lin + 1 from by
              have := pd_index_lt lin; omega, h3,
            show (512 : Nat) - pt_index lin = 511 - pt_index lin + 1 from by
              have := pt_index_lt lin; omega, h4, h5, h6, h7]
        rfl

/-- When the PDPT entry on the walk's path is a present 1 GiB huge page
(`page_size` set), `paging_map` of one page aborts with the error flag and no
change to the pageset, returning 0 mapped. -/
theorem map_huge_1g_abort (ps : Pageset) (s : List Nat) (l p fl : Nat)
    (t : Nat → PdptEntry)
    (hplo : pml4_index l ≤ 255)
    (hpres : (ps.pml4 (pml4_index l)).present = true)
    (ht : tmGet ps.table_map (ps.pml4 (pml4_index l)).pdpt_physical =
      some (.pdpt t))
    (hp : (t (pdpt_index l)).present = true)
    (hps : (t (pdpt_index l)).page_size = true) :
    paging_map ps s l p 1 fl =
      (0, { pageset := ps, supply := s, linear := l, physical := p
            mapped := 0, requested := 1, flags := fl, error := true }) := by
  obtain ⟨c, hc⟩ :
      ∃ c, (if ps.kernel = true then 512 else 256) - pml4_index l = c + 1 := by
    have hlt : pml4_index l < 512 := by unfold pml4_index; omega
    cases hk : ps.kernel
    · exact ⟨255 - pml4_index l, by rw [if_neg (by simp)]; omega⟩
    · exact ⟨511 - pml4_index l, by rw [if_pos rfl]; omega⟩
  have h1 : paging_map_pml4_loop
      { pageset := ps, supply := s, linear := l, physical := p
        mapped := 0, requested := 1, flags := fl, error := false } (c + 1) =
      paging_map_pml4_loop
        (paging_map_pdpt_loop (ps.pml4 (pml4_index l)).pdpt_physical
          { pageset := ps, supply := s, linear := l, physical := p
            mapped := 0, requested := 1, flags := fl, error := false }
          (512 - pdpt_index l)) c :=
    paging_map_pml4_loop_present _ _ ⟨rfl, Nat.one_pos⟩ hpres
  have h2 : paging_map_pdpt_loop (ps.pml4 (pml4_index l)).pdpt_physical
      { pageset := ps, supply := s, linear := l, physical := p
        mapped := 0, requested := 1, flags := fl, error := false }
      (511 - pdpt_index l + 1) =
      { pageset := ps, supply := s, linear := l, physical := p
        mapped := 0, requested := 1, flags := fl, error := true } :=
    paging_map_pdpt_loop_huge _ _ _ t ⟨rfl, Nat.one_pos⟩ ht hp hps
  have h3 : paging_map_pml4_loop
      { pageset := ps, supply := s, linear := l, physical := p
        mapped := 0, requested := 1, flags := fl, error := true } c =
      { pageset := ps, supply := s, linear := l, physical := p
        mapped := 0, requested := 1, flags := fl, error := true } :=
    paging_map_pml4_loop_exit _ _ (by simp)
  calc paging_map ps s l p 1 fl
      = ((paging_map_pml4_loop
            { pageset := ps, supply := s, linear := l, physical := p
              mapped := 0, requested := 1, flags := fl, error := false }
            ((if ps.kernel = true then 512 else 256) - pml4_index l)).mapped,
         paging_map_pml4_loop
            { pageset := ps, supply := s, linear := l, physical := p
              mapped := 0, requested := 1, flags := fl, error := false }
            ((if ps.kernel = true then 512 else 256) - pml4_index l)) := rfl
    _ = (0, { pageset := ps, supply := s, linear := l, physical := p
              mapped := 0, requested := 1, flags := fl, error := true }) := by
        rw [hc, h1,
            show (512 : Nat) - pdpt_index l = 511 - pdpt_index l + 1 from by
              have := pdpt_index_lt l; omega, h2, h3]

/-- When the PD entry on the walk's path is a present 2 MiB huge page,
`paging_map` of one page aborts with the error flag and no change to the
pageset, returning 0 mapped. -/
theorem map_huge_2m_abort (ps : Pageset) (s : List Nat) (l p fl : Nat)
    (t : Nat → PdptEntry) (t2 : Nat → PdEntry)
    (hplo : pml4_index l ≤ 255)
    (hpres : (ps.pml4 (pml4_index l)).present = true)
    (ht : tmGet ps.table_map (ps.pml4 (pml4_index l)).pdpt_physical =
      some (.pdpt t))
    (hp : (t (pdpt_index l)).present = true)
    (hps : (t (pdpt_index l)).page_size = false)
    (ht2 : tmGet ps.table_map (t (pdpt_index l)).phys = some (.pd t2))
    (hp2 : (t2 (pd_index l)).present = true)
    (hps2 : (t2 (pd_index l)).page_size = true) :
    paging_map ps s l p 1 fl =
      (0, { pageset := ps, supply := s, linear := l, physical := p
            mapped := 0, requested := 1, flags := fl, error := true }) := by
  obtain ⟨c, hc⟩ :
      ∃ c, (if ps.kernel = true then 512 else 256) - pml4_index l = c + 1 := by
    have hlt : pml4_index l < 512 := by unfold pml4_index; omega
    cases hk : ps.kernel
    · exact ⟨255 - pml4_index l, by rw [if_neg (by simp)]; omega⟩
    · exact ⟨511 - pml4_index l, by rw [if_pos rfl]; omega⟩
  have h1 : paging_map_pml4_loop
      { pageset := ps, supply := s, linear := l, physical := p
        mapped := 0, requested := 1, flags := fl, error := false } (c + 1) =
      paging_map_pml4_loop
        (paging_map_pdpt_loop (ps.pml4 (pml4_index l)).pdpt_physical
          { pageset := ps, supply := s, linear := l, physical := p
            mapped := 0, requested := 1, flags := fl, error := false }
          (512 - pdpt_index l)) c :=
    paging_map_pml4_loop_present _ _ ⟨rfl, Nat.one_pos⟩ hpres
  have h2 : paging_map_pdpt_loop (ps.pml4 (pml4_index l)).pdpt_physical
      { pageset := ps, supply := s, linear := l, physical := p
        mapped := 0, requested := 1, flags := fl, error := false }
      (511 - pdpt_index l + 1) =
      paging_map_pdpt_loop (ps.pml4 (pml4_index l)).pdpt_physical
        (paging_map_pd_loop (t (pdpt_index l)).phys
          { pageset := ps, supply := s, linear := l, physical := p
            mapped := 0, requested := 1, flags := fl, error := false }
          (512 - pd_index l)) (511 - pdpt_index l) :=
    paging_map_pdpt_loop_present _ _ _ t ⟨rfl, Nat.one_pos⟩ ht hp hps
  have h3 : paging_map_pd_loop (t (pdpt_index l)).phys
      { pageset := ps, supply := s, linear := l, physical := p
        mapped := 0, requested := 1, flags := fl, error := false }
      (511 - pd_index l + 1) =
      { pageset := ps, supply := s, linear := l, physical := p
        mapped := 0, requested := 1, flags := fl, error := true } :=
    paging_map_pd_loop_huge _ _ _ t2 ⟨rfl, Nat.one_pos⟩ ht2 hp2 hps2
  have h4 : paging_map_pdpt_loop (ps.pml4 (pml4_index l)).pdpt_physical
      { pageset := ps, supply := s, linear := l, physical := p
        mapped := 0, requested := 1, flags := fl, error := true }
      (511 - pdpt_index l) =
      { pageset := ps, supply := s, linear := l, physical := p
        mapped := 0, requested := 1, flags := fl, error := true } :=
    paging_map_pdpt_loop_exit _ _ _ (by simp)
  have h5 : paging_map_pml4_loop
      { pageset := ps, supply := s, linear := l, physical := p
        mapped := 0, requested := 1, flags := fl, error := true } c =
      { pageset := ps, supply := s, linear := l, physical := p
        mapped := 0, requested := 1, flags := fl, error := true } :=
    paging_map_pml4_loop_exit _ _ (by simp)
  calc paging_map ps s l p 1 fl
      = ((paging_map_pml4_loop
            { pageset := ps, supply := s, linear := l, physical := p
              mapped := 0, requested := 1, flags := fl, error := false }
            ((if ps.kernel = true then 512 else 256) - pml4_index l)).mapped,
         paging_map_pml4_loop
            { pageset := ps, supply := s, linear := l, physical := p
              mapped := 0, requested := 1, flags := fl, error := false }
            ((if ps.kernel = true then 512 else 256) - pml4_index l)) := rfl
    _ = (0, { pageset := ps, supply := s, linear := l, physical := p
              mapped := 0, requested := 1, flags := fl, error := true }) := by
        rw [hc, h1,
            show (512 : Nat) - pdpt_index l = 511 - pdpt_index l + 1 from by
              have := pdpt_index_lt l; omega, h2,
            show (512 : Nat) - pd_index l = 511 - pd_index l + 1 from by
              have := pd_index_lt l; omega, h3, h4, h5]

/-- A pageset whose walk path for linear address 0 hits a present 1 GiB huge
PDPT entry. -/
def c5_huge1g : Pageset :=
  { pml4_physical := 100
    pml4 := fun j => if j = 0 then
        { present := true, writable := true, user := true, pdpt_physical := 101 }
      else {}
    table_map := [(101, .pdpt (fun _ =>
      { present := true, writable := true, user := true
        page_size := true, phys := 5 }))]
    kernel := false }

/-- A pageset whose walk path for linear address 0 hits a present 2 MiB huge
PD entry. -/
def c5_huge2m : Pageset :=
  { pml4_physical := 100
    pml4 := fun j => if j = 0 then
        { present := true, writable := true, user := true, pdpt_physical := 101 }
      else {}
    table_map := [(101, .pdpt (fun _ =>
        { present := true, writable := true, user := true
          page_size := false, phys := 102 })),
      (102, .pd (fun _ =>
        { present := true, writable := true, user := true
          page_size := true, phys := 7 }))]
    kernel := false }

/-- **C5**: `paging_map` never overwrites an existing mapping.  After a
one-page map at `lin` succeeds (returns 1, first conjunct, in the fresh
scenario where success is possible), a second one-page map at the same `lin`
returns 0 and leaves the walker state — in particular the pageset and so the
original leaf entry — unchanged except for the error flag (second conjunct).
And whenever the walk's path reaches a present entry with the `page_size`
bit set — a 1 GiB huge page at the PDPT level (third conjunct) or a 2 MiB
huge page at the PD level (fourth conjunct) — the walk aborts with the error
flag, refusing to split the huge page, and a one-page request reports 0
pages mapped. -/
theorem C5_map_refuses_overwrite_and_huge (kps : Pageset) (f0 f1 f2 f3 : Nat)
    (rest : List Nat) (lin phys flags : Nat) (s2 : List Nat) (phys2 flags2 : Nat)
    (hlin : lin < 2 ^ 47)
    (hf1 : f1 < 2 ^ 40) (hf2 : f2 < 2 ^ 40) (hf3 : f3 < 2 ^ 40)
    (h12 : f1 ≠ f2) (h13 : f1 ≠ f3) (h23 : f2 ≠ f3) :
    (paging_map (fresh_pageset kps f0) (f1 :: f2 :: f3 :: rest)
        lin phys 1 flags).1 = 1 ∧
      paging_map (fmap_final kps f0 f1 f2 f3 rest lin phys flags).pageset
          s2 lin phys2 1 flags2 =
        (0, { fmap2_st0 kps f0 f1 f2 f3 rest lin phys flags s2 phys2 flags2 with
              error := true }) ∧
      (∀ (ps : Pageset) (s : List Nat) (l p fl : Nat) (t : Nat → PdptEntry),
        pml4_index l ≤ 255 →
        (ps.pml4 (pml4_index l)).present = true →
        tmGet ps.table_map (ps.pml4 (pml4_index l)).pdpt_physical =
          some (.pdpt t) →
        (t (pdpt_index l)).present = true →
        (t (pdpt_index l)).page_size = true →
        paging_map ps s l p 1 fl =
          (0, { pageset := ps, supply := s, linear := l, physical := p
                mapped := 0, requested := 1, flags := fl, error := true })) ∧
      (∀ (ps : Pageset) (s : List Nat) (l p fl : Nat)
          (t : Nat → PdptEntry) (t2 : Nat → PdEntry),
        pml4_index l ≤ 255 →
        (ps.pml4 (pml4_index l)).present = true →
        tmGet ps.table_map (ps.pml4 (pml4_index l)).pdpt_physical =
          some (.pdpt t) →
        (t (pdpt_index l)).present = true →
        (t (pdpt_index l)).page_size = false →
        tmGet ps.table_map (t (pdpt_index l)).phys = some (.pd t2) →
        (t2 (pd_index l)).present = true →
        (t2 (pd_index l)).page_size = true →
        paging_map ps s l p 1 fl =
          (0, { pageset := ps, supply := s, linear := l, physical := p
                mapped := 0, requested := 1, flags := fl, error := true })) := by
  refine ⟨?_, ?_, ?_, ?_⟩
  · rw [map_one_fresh kps f0 f1 f2 f3 rest lin phys flags hlin]
  · exact map_second_refused kps f0 f1 f2 f3 rest lin phys flags s2 phys2 flags2
      hlin hf1 hf2 hf3 h12 h13 h23
  · exact fun ps s l p fl t hplo hpres ht hp hps =>
      map_huge_1g_abort ps s l p fl t hplo hpres ht hp hps
  · exact fun ps s l p fl t t2 hplo hpres ht hp hps ht2 hp2 hps2 =>
      map_huge_2m_abort ps s l p fl t t2 hplo hpres ht hp hps ht2 hp2 hps2

/-- Concrete runs of **C5**: the double-map refusal after the C4 scenario,
and the 1 GiB / 2 MiB huge-page aborts on explicit pagesets. -/
theorem C5_witness :
    (paging_map (fmap_final c6_kps 11 12 13 14 [] 4096 28672 0).pageset
        [] 4096 8192 1 0 =
      (0, { fmap2_st0 c6_kps 11 12 13 14 [] 4096 28672 0 [] 8192 0 with
            error := true })) ∧
    (paging_map c5_huge1g [] 0 0 1 0 =
      (0, { pageset := c5_huge1g, supply := [], linear := 0, physical := 0
            mapped := 0, requested := 1, flags := 0, error := true })) ∧
    (paging_map c5_huge2m [] 0 0 1 0 =
      (0, { pageset := c5_huge2m, supply := [], linear := 0, physical := 0
            mapped := 0, requested := 1, flags := 0, error := true })) := by
  have h := C5_map_refuses_overwrite_and_huge c6_kps 11 12 13 14 [] 4096 28672 0
    [] 8192 0 (by norm_num) (by norm_num) (by norm_num) (by norm_num)
    (by decide) (by decide) (by decide)
  refine ⟨h.2.1, ?_, ?_⟩
  · exact h.2.2.1 c5_huge1g [] 0 0 0 _ (by decide) rfl rfl rfl rfl
  · exact h.2.2.2 c5_huge2m [] 0 0 0 _ _ (by decide) rfl rfl rfl rfl rfl rfl rfl

/-! ## The full allocator: heap growth with reentrant paging allocations
(src/kernel/memory.c:137-185 with src/kernel/paging.c:368-379, 144-200,
540-800)

The growth branch of `memory_alloc` calls
`paging_map(&paging_kernel_pageset, heap_end, physical_base, pages, 0)` with
growth disabled.  That walk allocates any missing intermediate tables from
this same heap (`__paging_alloc_page_phy_lin` = `memory_alloc_aligned(4096,
4096)` plus a resolve of the new page) and a 48-byte phy-lin map node per
new table (`paging_phy_lin_map_set`, paging.c:171), so `memory_heap_length`
advances beyond the caller's own bump before the loop condition is
re-checked.  The walkers below mirror `paging_map_*_loop` above, with the
frame supply replaced by the real heap allocations; each nested allocation
runs on a growth-disabled heap, where the non-growing `memory_alloc`
fragment is exact. -/

/-- `__paging_alloc_page_phy_lin` (src/kernel/paging.c:368-379): allocate a
page-aligned heap page and resolve its physical address against the kernel
pageset.  A NULL allocation is returned to the caller; a failed resolve is a
`DEBUG_ASSERT` (fatal in C), `none` here. -/
def paging_alloc_page_phy_lin (kps : Pageset) (mem : HeapSt) :
    Option (Option (Nat × Nat) × HeapSt) :=
  match memory_alloc_aligned 4096 4096 mem with
  | none => none
  | some (none, mem2) => some (none, mem2)
  | some (some page, mem2) =>
    match paging_resolve_linear_address kps kps page with
    | none => none
    | some physical => some (some (page, physical), mem2)

/-- `paging_phy_lin_map_set` (src/kernel/paging.c:144-200) including its
allocation: `tmSet` models the pointer-structure update; when the frame
(`physical >> 12`) is new the C function first allocates the 48-byte map
node (`sizeof(paging_phy_lin_map_node_t)`: a 32-byte `rbtree_node_t` — int
enum padded to 8 plus three pointers — and two uint64 fields) from this
same heap, and writes through the result without a NULL check (fatal if the
allocation failed, `none` here). -/
def tmSetAlloc (tm : TableMap) (physical : Nat) (t : PTable) (mem : HeapSt) :
    Option (TableMap × HeapSt) :=
  match tmGet tm (physical / 4096) with
  | some _ => some (tmSet tm (physical / 4096) t, mem)
  | none =>
    match memory_alloc 48 mem with
    | none => none
    | some (none, _) => none
    | some (some _, mem2) => some (tmSet tm (physical / 4096) t, mem2)

/-- Walker state for the kernel-heap `paging_map` (src/kernel/paging.c:
498-511): the map state plus the heap the nested allocations run on. -/
structure KMapState where
  pageset : Pageset
  mem : HeapSt
  linear : Nat
  physical : Nat
  mapped : Nat
  requested : Nat
  flags : Nat
  error : Bool

/-- `__paging_map_pt` (src/kernel/paging.c:754-800) over `KMapState`: the
leaf level allocates nothing; identical to `paging_map_pt_loop` with the
heap carried through untouched. -/
def kpaging_map_pt_loop (ptf : Nat) : KMapState → Nat → KMapState
  | st, 0 => st
  | st, count + 1 =>
    if st.error = false ∧ st.mapped < st.requested then
      match tmGet st.pageset.table_map ptf with
      | some (.pt t) =>
        let i := pt_index st.linear
        if (t i).present then { st with error := true }
        else
          let e2 : PtEntry :=
            { present := true
              writable := st.flags &&& PAGING_READONLY == 0
              user := !(st.flags &&& PAGING_USER == 0)
              page_physical := st.physical / 2 ^ 12 % 2 ^ 40 }
          kpaging_map_pt_loop ptf
            { st with
              pageset :=
                { st.pageset with
                  table_map := tmSet st.pageset.table_map ptf
                    (.pt (fun j => if j = i then e2 else t j)) }
              mapped := st.mapped + 1
              linear := u64add st.linear 0x1000
              physical := u64add st.physical 0x1000 }
            count
      | _ => { st with error := true }
    else st

/-- `__paging_map_pd` (src/kernel/paging.c:685-752) over `KMapState`: a
missing PT is allocated by `__paging_alloc_page_phy_lin` (NULL → error and
break), the PD entry written (`pt_physical = physical >> 12` into the
40-bit field), and the new zeroed PT recorded through the allocating
`paging_phy_lin_map_set`. -/
def kpaging_map_pd_loop (pdf : Nat) : KMapState → Nat → Option KMapState
  | st, 0 => some st
  | st, count + 1 =>
    if st.error = false ∧ st.mapped < st.requested then
      match tmGet st.pageset.table_map pdf with
      | some (.pd t) =>
        let i := pd_index st.linear
        let e := t i
        if e.present = false then
          match paging_alloc_page_phy_lin st.pageset st.mem with
          | none => none
          | some (none, mem2) => some { st with mem := mem2, error := true }
          | some (some (_page, pt_physical), mem2) =>
            let e2 : PdEntry :=
              { present := true, writable := true, user := true
                page_size := false, phys := pt_physical / 4096 % 2 ^ 40 }
            let tm := tmSet st.pageset.table_map pdf
              (.pd (fun j => if j = i then e2 else t j))
            match tmSetAlloc tm pt_physical (.pt (fun _ => {})) mem2 with
            | none => none
            | some (tm2, mem3) =>
              let st1 :=
                { st with
                  pageset := { st.pageset with table_map := tm2 }
                  mem := mem3 }
              let st2 := kpaging_map_pt_loop (pt_physical / 4096) st1
                (512 - pt_index st1.linear)
              kpaging_map_pd_loop pdf st2 count
        else if e.page_size then some { st with error := true }
        else
          let st2 := kpaging_map_pt_loop e.phys st (512 - pt_index st.linear)
          kpaging_map_pd_loop pdf st2 count
      | _ => some { st with error := true }
    else some st

/-- `__paging_map_pdpt` (src/kernel/paging.c:615-683) over `KMapState`. -/
def kpaging_map_pdpt_loop (pdptf : Nat) : KMapState → Nat → Option KMapState
  | st, 0 => some st
  | st, count + 1 =>
    if st.error = false ∧ st.mapped < st.requested then
      match tmGet st.pageset.table_map pdptf with
      | some (.pdpt t) =>
        let i := pdpt_index st.linear
        let e := t i
        if e.present = false then
          match paging_alloc_page_phy_lin st.pageset st.mem with
          | none => none
          | some (none, mem2) => some { st with mem := mem2, error := true }
          | some (some (_page, pd_physical), mem2) =>
            let e2 : PdptEntry :=
              { present := true, writable := true, user := true
                page_size := false, phys := pd_physical / 4096 % 2 ^ 40 }
            let tm := tmSet st.pageset.table_map pdptf
              (.pdpt (fun j => if j = i then e2 else t j))
            match tmSetAlloc tm pd_physical (.pd (fun _ => {})) mem2 with
            | none => none
            | some (tm2, mem3) =>
              let st1 :=
                { st with
                  pageset := { st.pageset with table_map := tm2 }
                  mem := mem3 }
              match kpaging_map_pd_loop (pd_physical / 4096) st1
                  (512 - pd_index st1.linear) with
              | none => none
              | some st2 => kpaging_map_pdpt_loop pdptf st2 count
        else if e.page_size then some { st with error := true }
        else
          match kpaging_map_pd_loop e.phys st (512 - pd_index st.linear) with
          | none => none
          | some st2 => kpaging_map_pdpt_loop pdptf st2 count
      | _ => some { st with error := true }
    else some st

/-- `__paging_map_pml4` (src/kernel/paging.c:540-613) over `KMapState`; the
growth path maps into the kernel pageset, for which `max_index` is 511, so
`count` is `512 - pml4_index`. -/
def kpaging_map_pml4_loop : KMapState → Nat → Option KMapState
  | st, 0 => some st
  | st, count + 1 =>
    if st.error = false ∧ st.mapped < st.requested then
      let i := pml4_index st.linear
      let e := st.pageset.pml4 i
      if e.present = false then
        match paging_alloc_page_phy_lin st.pageset st.mem with
        | none => none
        | some (none, mem2) => some { st with mem := mem2, error := true }
        | some (some (_page, pdpt_physical), mem2) =>
          let e2 : PML4Entry :=
            { present := true, writable := true, user := true
              pdpt_physical := pdpt_physical / 4096 % 2 ^ 40 }
          let ps :=
            { st.pageset with
              pml4 := fun j => if j = i then e2 else st.pageset.pml4 j }
          match tmSetAlloc ps.table_map pdpt_physical (.pdpt (fun _ => {})) mem2 with
          | none => none
          | some (tm2, mem3) =>
            let st1 := { st with pageset := { ps with table_map := tm2 }, mem := mem3 }
            match kpaging_map_pdpt_loop (pdpt_physical / 4096) st1
                (512 - pdpt_index st1.linear) with
            | none => none
            | some st2 => kpaging_map_pml4_loop st2 count
      else
        match kpaging_map_pdpt_loop e.pdpt_physical st (512 - pdpt_index st.linear) with
        | none => none
        | some st2 => kpaging_map_pml4_loop st2 count
    else some st

/-- `paging_map` (src/kernel/paging.c:522-538) on the kernel pageset with
the nested heap allocations threaded through. -/
def kpaging_map (kps : Pageset) (mem : HeapSt)
    (linear_address physical_address pages flags : Nat) :
    Option (Nat × Pageset × HeapSt) :=
  let st : KMapState :=
    { pageset := kps, mem := mem, linear := linear_address
      physical := physical_address, mapped := 0, requested := pages
      flags := flags, error := false }
  (kpaging_map_pml4_loop st (512 - pml4_index linear_address)).map
    fun st2 => (st2.mapped, st2.pageset, st2.mem)

/-- The `while` loop of `memory_alloc` (src/kernel/memory.c:137-185), full
model: the growth branch acquires frames, maps them into the kernel pageset
at `heap_end` with growth disabled — the nested allocations advancing
`heap_length` — restores growth and advances `heap_end` by `pages * 4096`.
Fueled structurally (the fuel passed by `kmemory_alloc` bounds the loop
iterations; each growth iteration advances `heap_end` by at least a page,
so realistic runs take a handful); `none` when the fuel runs out (the C
loop still running past the budget) or a nested walk hits a fatal
assertion. -/
def kmemory_alloc_loop : Nat → Pageset → HeapSt → Option (Bool × Pageset × HeapSt)
  | 0, _, _ => none
  | fuel + 1, kps, s =>
    if s.heap_start + s.heap_length + memory_bufzone s > s.heap_end then
      if s.large_enabled ∧ s.grow_enabled then
        let grow := s.heap_length + MEMORY_BUFZONE_SIZE - (s.heap_end - s.heap_start)
        let pages := grow / 4096 + (if grow % 4096 ≠ 0 then 1 else 0)
        match memory_free_region_acquire s.fr pages with
        | none => none
        | some (granted, physical_base, fr2) =>
          if granted = 0 then some (false, kps, { s with fr := fr2 })  -- out of memory
          else
            match kpaging_map kps { s with fr := fr2, grow_enabled := false }
                s.heap_end physical_base pages 0 with
            | none => none
            | some (_, kps2, mem2) =>
              kmemory_alloc_loop fuel kps2
                { mem2 with
                  grow_enabled := true
                  heap_end := s.heap_end + pages * 4096 }
      else some (false, kps, s)
    else some (true, kps, s)

/-- `memory_alloc` (src/kernel/memory.c:130-193), full model over the heap
and the kernel pageset. -/
def kmemory_alloc (size : Nat) (kps : Pageset) (s : HeapSt) :
    Option (Option Nat × Pageset × HeapSt) :=
  let result := s.heap_start + s.heap_length
  let s := { s with heap_length := u64add s.heap_length size }
  (kmemory_alloc_loop (s.heap_length + MEMORY_BUFZONE_SIZE + 1) kps s).map
    fun r => (if r.1 then some result else none, r.2)

/-- `memory_alloc_aligned` (src/kernel/memory.c:203-213), full model. -/
def kmemory_alloc_aligned (size alignment : Nat) (kps : Pageset) (s : HeapSt) :
    Option (Option Nat × Pageset × HeapSt) :=
  let pointer_value := s.heap_start + s.heap_length
  let s :=
    if pointer_value % alignment ≠ 0 then
      { s with heap_length := u64add s.heap_length (alignment - pointer_value % alignment) }
    else s
  kmemory_alloc size kps s

theorem u64add_add (a b c : Nat) : u64add (u64add a b) c = u64add a (b + c) := by
  simp [u64add, Nat.mod_add_mod, Nat.add_assoc]

theorem u64add_zero_add (a b : Nat) : u64add (u64add a 0) b = u64add a b := by
  simp [u64add, Nat.mod_add_mod]

/-- On a state where the growth branch cannot be taken, the full allocator
agrees with the non-growing fragment `memory_alloc` (and leaves the kernel
pageset alone). -/
theorem kmemory_alloc_agrees_nogrow (size : Nat) (kps : Pageset) (s : HeapSt)
    (hflags : ¬(s.large_enabled = true ∧ s.grow_enabled = true)) :
    kmemory_alloc size kps s =
      (memory_alloc size s).map (fun r => (r.1, kps, r.2)) := by
  unfold kmemory_alloc memory_alloc
  dsimp only
  rw [kmemory_alloc_loop]
  unfold memory_alloc_loop
  by_cases hc : s.heap_start + u64add s.heap_length size +
      memory_bufzone { s with heap_length := u64add s.heap_length size } > s.heap_end
  · rw [if_pos hc, if_pos hc, if_neg hflags, if_neg hflags]
    rfl
  · rw [if_neg hc, if_neg hc]
    rfl

/-- Failure of the full allocator when the growth branch cannot be taken:
the state comes back unchanged except that `heap_length` has been advanced
by exactly `size`. -/
theorem kmemory_alloc_noflags (size : Nat) (kps : Pageset) (s : HeapSt)
    (hflags : ¬(s.large_enabled = true ∧ s.grow_enabled = true))
    (hcond : s.heap_start + u64add s.heap_length size + memory_bufzone s > s.heap_end) :
    kmemory_alloc size kps s =
      some (none, kps, { s with heap_length := u64add s.heap_length size }) := by
  unfold kmemory_alloc
  try dsimp only
  rw [kmemory_alloc_loop]
  simp only [memory_bufzone] at hcond ⊢
  try dsimp only
  rw [if_pos hcond, if_neg hflags]
  rfl

theorem kpaging_map_pt_loop_exit (ptf : Nat) (st : KMapState) (c : Nat)
    (h : ¬(st.error = false ∧ st.mapped < st.requested)) :
    kpaging_map_pt_loop ptf st c = st := by
  cases c with
  | zero => rfl
  | succ c => rw [kpaging_map_pt_loop, if_neg h]

theorem kpaging_map_pd_loop_exit (pdf : Nat) (st : KMapState) (c : Nat)
    (h : ¬(st.error = false ∧ st.mapped < st.requested)) :
    kpaging_map_pd_loop pdf st c = some st := by
  cases c with
  | zero => rfl
  | succ c => rw [kpaging_map_pd_loop, if_neg h]

theorem kpaging_map_pdpt_loop_exit (pdptf : Nat) (st : KMapState) (c : Nat)
    (h : ¬(st.error = false ∧ st.mapped < st.requested)) :
    kpaging_map_pdpt_loop pdptf st c = some st := by
  cases c with
  | zero => rfl
  | succ c => rw [kpaging_map_pdpt_loop, if_neg h]

theorem kpaging_map_pml4_loop_exit (st : KMapState) (c : Nat)
    (h : ¬(st.error = false ∧ st.mapped < st.requested)) :
    kpaging_map_pml4_loop st c = some st := by
  cases c with
  | zero => rfl
  | succ c => rw [kpaging_map_pml4_loop, if_neg h]

theorem kpaging_map_pt_loop_write (ptf : Nat) (st : KMapState) (c : Nat)
    (t : Nat → PtEntry)
    (hg : st.error = false ∧ st.mapped < st.requested)
    (ht : tmGet st.pageset.table_map ptf = some (.pt t))
    (hp : (t (pt_index st.linear)).present = false) :
    kpaging_map_pt_loop ptf st (c + 1) =
      kpaging_map_pt_loop ptf
        { st with
          pageset :=
            { st.pageset with
              table_map := tmSet st.pageset.table_map ptf
                (.pt (fun j => if j = pt_index st.linear then
                  { present := true
                    writable := st.flags &&& PAGING_READONLY == 0
                    user := !(st.flags &&& PAGING_USER == 0)
                    page_physical := st.physical / 2 ^ 12 % 2 ^ 40 }
                  else t j)) }
          mapped := st.mapped + 1
          linear := u64add st.linear 0x1000
          physical := u64add st.physical 0x1000 } c := by
  conv_lhs => rw [kpaging_map_pt_loop]
  rw [if_pos hg, ht]
  try dsimp only
  rw [if_neg (by simp [hp])]

theorem kpaging_map_pd_loop_alloc (pdf : Nat) (st : KMapState) (c : Nat)
    (t : Nat → PdEntry) (pg pt_physical : Nat) (mem2 : HeapSt)
    (tm2 : TableMap) (mem3 : HeapSt)
    (hg : st.error = false ∧ st.mapped < st.requested)
    (ht : tmGet st.pageset.table_map pdf = some (.pd t))
    (hp : (t (pd_index st.linear)).present = false)
    (halloc : paging_alloc_page_phy_lin st.pageset st.mem =
      some (some (pg, pt_physical), mem2))
    (hset : tmSetAlloc
        (tmSet st.pageset.table_map pdf
          (.pd (fun j => if j = pd_index st.linear then
            { present := true, writable := true, user := true
              page_size := false, phys := pt_physical / 4096 % 2 ^ 40 }
            else t j)))
        pt_physical (.pt (fun _ => {})) mem2 = some (tm2, mem3)) :
    kpaging_map_pd_loop pdf st (c + 1) =
      kpaging_map_pd_loop pdf
        (kpaging_map_pt_loop (pt_physical / 4096)
          { st with
            pageset := { st.pageset with table_map := tm2 }
            mem := mem3 }
          (512 - pt_index st.linear)) c := by
  conv_lhs => rw [kpaging_map_pd_loop]
  rw [if_pos hg, ht]
  try dsimp only
  rw [hp]
  rw [if_pos rfl, halloc]
  try dsimp only
  rw [hset]

theorem kpaging_map_pdpt_loop_present (pdptf : Nat) (st : KMapState) (c : Nat)
    (t : Nat → PdptEntry)
    (hg : st.error = false ∧ st.mapped < st.requested)
    (ht : tmGet st.pageset.table_map pdptf = some (.pdpt t))
    (hp : (t (pdpt_index st.linear)).present = true)
    (hps : (t (pdpt_index st.linear)).page_size = false) :
    kpaging_map_pdpt_loop pdptf st (c + 1) =
      match kpaging_map_pd_loop (t (pdpt_index st.linear)).phys st
          (512 - pd_index st.linear) with
      | none => none
      | some st2 => kpaging_map_pdpt_loop pdptf st2 c := by
  conv_lhs => rw [kpaging_map_pdpt_loop]
  rw [if_pos hg, ht]
  try dsimp only
  rw [hp, hps]
  rfl

theorem kpaging_map_pml4_loop_present (st : KMapState) (c : Nat)
    (hg : st.error = false ∧ st.mapped < st.requested)
    (hp : (st.pageset.pml4 (pml4_index st.linear)).present = true) :
    kpaging_map_pml4_loop st (c + 1) =
      match kpaging_map_pdpt_loop
          (st.pageset.pml4 (pml4_index st.linear)).pdpt_physical st
          (512 - pdpt_index st.linear) with
      | none => none
      | some st2 => kpaging_map_pml4_loop st2 c := by
  conv_lhs => rw [kpaging_map_pml4_loop]
  rw [if_pos hg]
  try dsimp only
  rw [hp]
  rfl

/-- Success of the non-growing `memory_alloc` fragment: under the limit it
returns the pre-call cursor and advances `heap_length` by `size`. -/
theorem memory_alloc_nogrow_success (size : Nat) (s : HeapSt)
    (hcond : ¬(s.heap_start + u64add s.heap_length size + memory_bufzone s > s.heap_end)) :
    memory_alloc size s =
      some (some (s.heap_start + s.heap_length),
        { s with heap_length := u64add s.heap_length size }) := by
  unfold memory_alloc
  try dsimp only
  unfold memory_alloc_loop
  simp only [memory_bufzone] at hcond ⊢
  try dsimp only
  rw [if_neg hcond]
  rfl

/-- Alignment padding `memory_alloc_aligned` adds (src/kernel/memory.c:
205-210). -/
def kalign_pad (s : HeapSt) (alignment : Nat) : Nat :=
  if (s.heap_start + s.heap_length) % alignment ≠ 0 then
    alignment - (s.heap_start + s.heap_length) % alignment
  else 0

/-- The 4096-byte alignment padding of the nested table allocation performed
by the first growth iteration of `kmemory_alloc size kps s` (the cursor is
then at `heap_length + size`). -/
def kgrow_pad (s : HeapSt) (size : Nat) : Nat :=
  if (s.heap_start + u64add s.heap_length size) % 4096 ≠ 0 then
    4096 - (s.heap_start + u64add s.heap_length size) % 4096
  else 0

/-- Heap state entering the growth iteration's `paging_map`: cursor advanced
by the request, frames acquired, growth disabled. -/
def kgrow_mem0 (s : HeapSt) (size : Nat) (fr2 : FRState) : HeapSt :=
  { s with
    heap_length := u64add s.heap_length size
    fr := fr2, grow_enabled := false }

/-- Heap state after the nested 4096-byte aligned table allocation. -/
def kgrow_mem2 (s : HeapSt) (size : Nat) (fr2 : FRState) : HeapSt :=
  { s with
    heap_length := u64add (u64add (u64add s.heap_length size) (kgrow_pad s size)) 4096
    fr := fr2, grow_enabled := false }

/-- Heap state after the nested 48-byte map-node allocation as well. -/
def kgrow_mem3 (s : HeapSt) (size : Nat) (fr2 : FRState) : HeapSt :=
  { s with
    heap_length :=
      u64add (u64add (u64add (u64add s.heap_length size) (kgrow_pad s size)) 4096) 48
    fr := fr2, grow_enabled := false }

/-- Walker start state of the growth iteration's one-page kernel map. -/
def kgrow_st0 (kps : Pageset) (s : HeapSt) (size pb : Nat) (fr2 : FRState) :
    KMapState :=
  { pageset := kps, mem := kgrow_mem0 s size fr2, linear := s.heap_end
    physical := pb, mapped := 0, requested := 1, flags := 0, error := false }

/-- Table map after the growth walk's PD-level PT allocation: PD entry
written, new zeroed PT recorded. -/
def kgrow_tm2 (kps : Pageset) (s : HeapSt)
    (t : Nat → PdptEntry) (t2 : Nat → PdEntry) (PB1 : Nat) : TableMap :=
  tmSet
    (tmSet kps.table_map (t (pdpt_index s.heap_end)).phys
      (.pd (fun j => if j = pd_index s.heap_end then
        { present := true, writable := true, user := true
          page_size := false, phys := PB1 / 4096 % 2 ^ 40 }
        else t2 j)))
    (PB1 / 4096) (.pt (fun _ => {}))

/-- Table map after the leaf write as well. -/
def kgrow_tm4 (kps : Pageset) (s : HeapSt) (pb : Nat)
    (t : Nat → PdptEntry) (t2 : Nat → PdEntry) (PB1 : Nat) : TableMap :=
  tmSet (kgrow_tm2 kps s t t2 PB1) (PB1 / 4096)
    (.pt (fun j => if j = pt_index s.heap_end then
      { present := true
        writable := (0 : Nat) &&& PAGING_READONLY == 0
        user := !((0 : Nat) &&& PAGING_USER == 0)
        page_physical := pb / 2 ^ 12 % 2 ^ 40 }
      else (fun _ => ({} : PtEntry)) j))

/-- Walker state after the PD-level PT allocation: PD entry written, new
zeroed PT recorded, both nested allocations charged to the heap. -/
def kgrow_st1 (kps : Pageset) (s : HeapSt) (size pb : Nat) (fr2 : FRState)
    (t : Nat → PdptEntry) (t2 : Nat → PdEntry) (PB1 : Nat) : KMapState :=
  { pageset := { kps with table_map := kgrow_tm2 kps s t t2 PB1 }
    mem := kgrow_mem3 s size fr2
    linear := s.heap_end, physical := pb
    mapped := 0, requested := 1, flags := 0, error := false }

/-- Final walker state of the growth iteration: leaf written, one page
mapped, cursor advanced a page. -/
def kgrow_st4 (kps : Pageset) (s : HeapSt) (size pb : Nat) (fr2 : FRState)
    (t : Nat → PdptEntry) (t2 : Nat → PdEntry) (PB1 : Nat) : KMapState :=
  { pageset := { kps with table_map := kgrow_tm4 kps s pb t t2 PB1 }
    mem := kgrow_mem3 s size fr2
    linear := u64add s.heap_end 0x1000, physical := u64add pb 0x1000
    mapped := 1, requested := 1, flags := 0, error := false }

/-- The pageset after the growth iteration's one-page kernel map. -/
def kgrow_ps4 (kps : Pageset) (s : HeapSt) (pb : Nat)
    (t : Nat → PdptEntry) (t2 : Nat → PdEntry) (PB1 : Nat) : Pageset :=
  { kps with table_map := kgrow_tm4 kps s pb t t2 PB1 }

/-- Heap state re-entering the loop after the growth iteration: nested
allocations charged, growth restored, `heap_end` advanced by the mapped
page. -/
def kgrow_heap2 (s : HeapSt) (size : Nat) (fr2 : FRState) : HeapSt :=
  { s with
    heap_end := s.heap_end + 4096
    heap_length :=
      u64add (u64add (u64add (u64add s.heap_length size) (kgrow_pad s size)) 4096) 48
    grow_enabled := true
    fr := fr2 }

set_option maxHeartbeats 1000000 in
set_option maxRecDepth 40000 in
/-- First loop iteration of the growth scenario: acquire one frame, map one
page at `heap_end` into the kernel pageset — allocating a PT (4096-byte
aligned table after `kgrow_pad` padding, plus a 48-byte map node) — restore
growth and advance `heap_end`. -/
theorem kgrow_loop_step1 (c : Nat)
    (kps : Pageset) (s : HeapSt) (size pb : Nat) (fr2 : FRState)
    (t : Nat → PdptEntry) (t2 : Nat → PdEntry) (PB1 : Nat)
    (hfl1 : s.large_enabled = true) (hfl2 : s.grow_enabled = true)
    (hc1 : s.heap_start + u64add s.heap_length size + MEMORY_BUFZONE_SIZE > s.heap_end)
    (hp1 : (u64add s.heap_length size + MEMORY_BUFZONE_SIZE - (s.heap_end - s.heap_start)) / 4096
      + (if (u64add s.heap_length size + MEMORY_BUFZONE_SIZE - (s.heap_end - s.heap_start)) % 4096 ≠ 0
         then 1 else 0) = 1)
    (hacq1 : memory_free_region_acquire s.fr 1 = some (1, pb, fr2))
    (hfit1 : ¬(s.heap_start
      + u64add (u64add (u64add s.heap_length size) (kgrow_pad s size)) 4096 > s.heap_end))
    (hfit2 : ¬(s.heap_start
      + u64add (u64add (u64add (u64add s.heap_length size) (kgrow_pad s size)) 4096) 48
        > s.heap_end))
    (hpml4 : (kps.pml4 (pml4_index s.heap_end)).present = true)
    (htp : tmGet kps.table_map (kps.pml4 (pml4_index s.heap_end)).pdpt_physical =
      some (.pdpt t))
    (hpe : (t (pdpt_index s.heap_end)).present = true)
    (hpe2 : (t (pdpt_index s.heap_end)).page_size = false)
    (htd : tmGet kps.table_map (t (pdpt_index s.heap_end)).phys = some (.pd t2))
    (hde : (t2 (pd_index s.heap_end)).present = false)
    (hres : paging_resolve_linear_address kps kps
      (s.heap_start + u64add (u64add s.heap_length size) (kgrow_pad s size)) = some PB1)
    (hne : PB1 / 4096 ≠ (t (pdpt_index s.heap_end)).phys)
    (hnotin : tmGet kps.table_map (PB1 / 4096) = none) :
    kmemory_alloc_loop (c + 1) kps { s with heap_length := u64add s.heap_length size } =
      kmemory_alloc_loop c (kgrow_ps4 kps s pb t t2 PB1) (kgrow_heap2 s size fr2) := by
  have key : memory_alloc_aligned 4096 4096 (kgrow_mem0 s size fr2) =
      memory_alloc 4096 { kgrow_mem0 s size fr2 with
        heap_length := u64add (u64add s.heap_length size) (kgrow_pad s size) } := by
    unfold memory_alloc_aligned kgrow_pad
    dsimp only [kgrow_mem0]
    split_ifs with h
    · rfl
    · rw [show u64add (u64add s.heap_length size) 0 = u64add s.heap_length size from by
        rw [u64add_add]
        rfl]
  have halloc : paging_alloc_page_phy_lin kps (kgrow_mem0 s size fr2) =
      some (some (s.heap_start + u64add (u64add s.heap_length size) (kgrow_pad s size), PB1),
        kgrow_mem2 s size fr2) := by
    unfold paging_alloc_page_phy_lin
    rw [key]
    rw [memory_alloc_nogrow_success 4096
      { kgrow_mem0 s size fr2 with
        heap_length := u64add (u64add s.heap_length size) (kgrow_pad s size) } hfit1]
    dsimp only [kgrow_mem0]
    rw [hres]
    rfl
  have hset : tmSetAlloc
      (tmSet kps.table_map (t (pdpt_index s.heap_end)).phys
        (.pd (fun j => if j = pd_index s.heap_end then
          { present := true, writable := true, user := true
            page_size := false, phys := PB1 / 4096 % 2 ^ 40 }
          else t2 j)))
      PB1 (.pt (fun _ => {})) (kgrow_mem2 s size fr2) =
      some (kgrow_tm2 kps s t t2 PB1, kgrow_mem3 s size fr2) := by
    unfold tmSetAlloc
    rw [tmGet_tmSet, if_neg hne, hnotin]
    dsimp only
    rw [memory_alloc_nogrow_success 48 (kgrow_mem2 s size fr2) hfit2]
    rfl
  have hi4 : pml4_index s.heap_end < 512 := by unfold pml4_index; omega
  have e_pml4 : kpaging_map_pml4_loop (kgrow_st0 kps s size pb fr2)
      (511 - pml4_index s.heap_end + 1) =
      match kpaging_map_pdpt_loop (kps.pml4 (pml4_index s.heap_end)).pdpt_physical
          (kgrow_st0 kps s size pb fr2) (512 - pdpt_index s.heap_end) with
      | none => none
      | some st2 => kpaging_map_pml4_loop st2 (511 - pml4_index s.heap_end) :=
    kpaging_map_pml4_loop_present _ _ ⟨rfl, Nat.one_pos⟩ hpml4
  have e_pdpt : kpaging_map_pdpt_loop (kps.pml4 (pml4_index s.heap_end)).pdpt_physical
      (kgrow_st0 kps s size pb fr2) (511 - pdpt_index s.heap_end + 1) =
      match kpaging_map_pd_loop (t (pdpt_index s.heap_end)).phys
          (kgrow_st0 kps s size pb fr2) (512 - pd_index s.heap_end) with
      | none => none
      | some st2 => kpaging_map_pdpt_loop
          (kps.pml4 (pml4_index s.heap_end)).pdpt_physical st2
          (511 - pdpt_index s.heap_end) :=
    kpaging_map_pdpt_loop_present _ _ _ t ⟨rfl, Nat.one_pos⟩ htp hpe hpe2
  have e_pd : kpaging_map_pd_loop (t (pdpt_index s.heap_end)).phys
      (kgrow_st0 kps s size pb fr2) (511 - pd_index s.heap_end + 1) =
      kpaging_map_pd_loop (t (pdpt_index s.heap_end)).phys
        (kpaging_map_pt_loop (PB1 / 4096) (kgrow_st1 kps s size pb fr2 t t2 PB1)
          (512 - pt_index s.heap_end)) (511 - pd_index s.heap_end) :=
    kpaging_map_pd_loop_alloc _ _ _ t2
      (s.heap_start + u64add (u64add s.heap_length size) (kgrow_pad s size)) PB1
      (kgrow_mem2 s size fr2) (kgrow_tm2 kps s t t2 PB1) (kgrow_mem3 s size fr2)
      ⟨rfl, Nat.one_pos⟩ htd hde halloc hset
  have e_pt : kpaging_map_pt_loop (PB1 / 4096) (kgrow_st1 kps s size pb fr2 t t2 PB1)
      (511 - pt_index s.heap_end + 1) =
      kpaging_map_pt_loop (PB1 / 4096) (kgrow_st4 kps s size pb fr2 t t2 PB1)
        (511 - pt_index s.heap_end) :=
    kpaging_map_pt_loop_write _ _ _ (fun _ => {}) ⟨rfl, Nat.one_pos⟩
      (by simp [kgrow_st1, kgrow_tm2, tmGet_tmSet]) rfl
  have hw_pt : kpaging_map_pt_loop (PB1 / 4096) (kgrow_st1 kps s size pb fr2 t t2 PB1)
      (512 - pt_index s.heap_end) = kgrow_st4 kps s size pb fr2 t t2 PB1 := by
    rw [show (512 : Nat) - pt_index s.heap_end = 511 - pt_index s.heap_end + 1 from by
      have := pt_index_lt s.heap_end; omega]
    rw [e_pt]
    exact kpaging_map_pt_loop_exit _ _ _ (by simp [kgrow_st4])
  have hw_pd : kpaging_map_pd_loop (t (pdpt_index s.heap_end)).phys
      (kgrow_st0 kps s size pb fr2) (512 - pd_index s.heap_end) =
      some (kgrow_st4 kps s size pb fr2 t t2 PB1) := by
    rw [show (512 : Nat) - pd_index s.heap_end = 511 - pd_index s.heap_end + 1 from by
      have := pd_index_lt s.heap_end; omega]
    rw [e_pd, hw_pt]
    exact kpaging_map_pd_loop_exit _ _ _ (by simp [kgrow_st4])
  have hw_pdpt : kpaging_map_pdpt_loop (kps.pml4 (pml4_index s.heap_end)).pdpt_physical
      (kgrow_st0 kps s size pb fr2) (512 - pdpt_index s.heap_end) =
      some (kgrow_st4 kps s size pb fr2 t t2 PB1) := by
    rw [show (512 : Nat) - pdpt_index s.heap_end = 511 - pdpt_index s.heap_end + 1 from by
      have := pdpt_index_lt s.heap_end; omega]
    rw [e_pdpt, hw_pd]
    exact kpaging_map_pdpt_loop_exit _ _ _ (by simp [kgrow_st4])
  have hw1 : kpaging_map_pml4_loop (kgrow_st0 kps s size pb fr2)
      (512 - pml4_index s.heap_end) =
      some (kgrow_st4 kps s size pb fr2 t t2 PB1) := by
    rw [show (512 : Nat) - pml4_index s.heap_end = 511 - pml4_index s.heap_end + 1 from by
      omega]
    rw [e_pml4, hw_pdpt]
    exact kpaging_map_pml4_loop_exit _ _ (by simp [kgrow_st4])
  have hmap : kpaging_map kps
      { heap_start := s.heap_start, heap_end := s.heap_end
        heap_length := u64add s.heap_length size
        large_enabled := s.large_enabled, grow_enabled := false, fr := fr2 }
      s.heap_end pb 1 0 =
      some (1, kgrow_ps4 kps s pb t t2 PB1, kgrow_mem3 s size fr2) := by
    show (kpaging_map_pml4_loop (kgrow_st0 kps s size pb fr2)
        (512 - pml4_index s.heap_end)).map
      (fun st2 => (st2.mapped, st2.pageset, st2.mem)) = _
    rw [hw1]
    rfl
  rw [kmemory_alloc_loop]
  simp only [memory_bufzone]
  dsimp only
  rw [hfl2]
  simp only [eq_self_iff_true, if_true]
  rw [if_pos hc1, if_pos (show s.large_enabled = true ∧ True from ⟨hfl1, trivial⟩)]
  try dsimp only
  rw [hp1, hacq1]
  try dsimp only
  rw [if_neg (Nat.one_ne_zero), hmap]
  try dsimp only [kgrow_mem3]
  rw [show (1 : Nat) * 4096 = 4096 from rfl]
  rfl

/-- Second loop iteration of the growth scenario: the nested allocations
re-trigger the limit check and the acquire finds the free tree exhausted —
the allocation fails with everything consumed. -/
theorem kgrow_loop_step2 (c : Nat) (kps2 : Pageset) (s : HeapSt)
    (size pages2 pb2 : Nat) (fr2 fr3 : FRState)
    (hfl1 : s.large_enabled = true)
    (hc2 : s.heap_start
        + u64add (u64add (u64add (u64add s.heap_length size) (kgrow_pad s size)) 4096) 48
        + MEMORY_BUFZONE_SIZE > s.heap_end + 4096)
    (hp2 : (u64add (u64add (u64add (u64add s.heap_length size) (kgrow_pad s size)) 4096) 48
          + MEMORY_BUFZONE_SIZE - (s.heap_end + 4096 - s.heap_start)) / 4096
      + (if (u64add (u64add (u64add (u64add s.heap_length size) (kgrow_pad s size)) 4096) 48
             + MEMORY_BUFZONE_SIZE - (s.heap_end + 4096 - s.heap_start)) % 4096 ≠ 0
         then 1 else 0) = pages2)
    (hacq2 : memory_free_region_acquire fr2 pages2 = some (0, pb2, fr3)) :
    kmemory_alloc_loop (c + 1) kps2 (kgrow_heap2 s size fr2) =
      some (false, kps2, kgrow_heap2 s size fr3) := by
  rw [kmemory_alloc_loop]
  simp only [memory_bufzone]
  dsimp only [kgrow_heap2]
  simp only [eq_self_iff_true, if_true]
  rw [if_pos hc2, if_pos (show s.large_enabled = true ∧ True from ⟨hfl1, trivial⟩)]
  try dsimp only
  rw [hp2, hacq2]
  try dsimp only
  rw [if_pos rfl]

set_option maxRecDepth 40000 in
/-- One growth iteration of the full allocator that allocates a PT for the
mapped page (PML4 and PDPT on the path present, PD entry absent), followed
by a second iteration whose acquire finds the free tree exhausted: the
failed `memory_alloc` leaves `heap_length` advanced by
`size + kgrow_pad + 4096 + 48` — the request plus the reentrant table and
map-node allocations — with `heap_start` unchanged and `heap_end` grown by
the mapped page. -/
theorem kmemory_alloc_grow_oom
    (kps : Pageset) (s : HeapSt) (size pb : Nat) (fr2 : FRState)
    (t : Nat → PdptEntry) (t2 : Nat → PdEntry) (PB1 pages2 pb2 : Nat)
    (fr3 : FRState)
    (hfl1 : s.large_enabled = true) (hfl2 : s.grow_enabled = true)
    (hc1 : s.heap_start + u64add s.heap_length size + MEMORY_BUFZONE_SIZE > s.heap_end)
    (hp1 : (u64add s.heap_length size + MEMORY_BUFZONE_SIZE - (s.heap_end - s.heap_start)) / 4096
      + (if (u64add s.heap_length size + MEMORY_BUFZONE_SIZE - (s.heap_end - s.heap_start)) % 4096 ≠ 0
         then 1 else 0) = 1)
    (hacq1 : memory_free_region_acquire s.fr 1 = some (1, pb, fr2))
    (hfit1 : ¬(s.heap_start
      + u64add (u64add (u64add s.heap_length size) (kgrow_pad s size)) 4096 > s.heap_end))
    (hfit2 : ¬(s.heap_start
      + u64add (u64add (u64add (u64add s.heap_length size) (kgrow_pad s size)) 4096) 48 > s.heap_end))
    (hpml4 : (kps.pml4 (pml4_index s.heap_end)).present = true)
    (htp : tmGet kps.table_map (kps.pml4 (pml4_index s.heap_end)).pdpt_physical =
      some (.pdpt t))
    (hpe : (t (pdpt_index s.heap_end)).present = true)
    (hpe2 : (t (pdpt_index s.heap_end)).page_size = false)
    (htd : tmGet kps.table_map (t (pdpt_index s.heap_end)).phys = some (.pd t2))
    (hde : (t2 (pd_index s.heap_end)).present = false)
    (hres : paging_resolve_linear_address kps kps
      (s.heap_start + u64add (u64add s.heap_length size) (kgrow_pad s size)) = some PB1)
    (hne : PB1 / 4096 ≠ (t (pdpt_index s.heap_end)).phys)
    (hnotin : tmGet kps.table_map (PB1 / 4096) = none)
    (hc2 : s.heap_start
        + u64add (u64add (u64add (u64add s.heap_length size) (kgrow_pad s size)) 4096) 48
        + MEMORY_BUFZONE_SIZE > s.heap_end + 4096)
    (hp2 : (u64add (u64add (u64add (u64add s.heap_length size) (kgrow_pad s size)) 4096) 48
          + MEMORY_BUFZONE_SIZE - (s.heap_end + 4096 - s.heap_start)) / 4096
      + (if (u64add (u64add (u64add (u64add s.heap_length size) (kgrow_pad s size)) 4096) 48
             + MEMORY_BUFZONE_SIZE - (s.heap_end + 4096 - s.heap_start)) % 4096 ≠ 0
         then 1 else 0) = pages2)
    (hacq2 : memory_free_region_acquire fr2 pages2 = some (0, pb2, fr3)) :
    (kmemory_alloc size kps s).map
        (fun r => (r.1, r.2.2.heap_length, r.2.2.heap_start, r.2.2.heap_end)) =
      some (none, u64add s.heap_length (size + (kgrow_pad s size + (4096 + 48))),
        s.heap_start, s.heap_end + 4096) := by
  have h1 := kgrow_loop_step1 (u64add s.heap_length size + MEMORY_BUFZONE_SIZE)
    kps s size pb fr2 t t2 PB1 hfl1 hfl2 hc1 hp1 hacq1 hfit1 hfit2
    hpml4 htp hpe hpe2 htd hde hres hne hnotin
  have h2 := kgrow_loop_step2
    (u64add s.heap_length size + MEMORY_BUFZONE_SIZE - 1)
    (kgrow_ps4 kps s pb t t2 PB1) s size pages2 pb2 fr2 fr3 hfl1 hc2 hp2 hacq2
  unfold kmemory_alloc
  dsimp only
  rw [h1]
  rw [show u64add s.heap_length size + MEMORY_BUFZONE_SIZE =
      (u64add s.heap_length size + MEMORY_BUFZONE_SIZE - 1) + 1 from by
    unfold MEMORY_BUFZONE_SIZE
    omega]
  rw [h2]
  dsimp only [Option.map, kgrow_heap2]
  rw [u64add_add, u64add_add, u64add_add]
  rfl

/-- Claim C10 (amended): when `memory_alloc(size)` fails and returns NULL,
the bump cursor `memory_heap_length` is not restored.  With the large heap
absent or growth disabled — the "ran out of initial heap" and "tried to
grow the heap recursively" failure paths — the failing call leaves the
state unchanged except that `heap_length` has been advanced by exactly
`size` (first conjunct); every allocation that returns a pointer returns
the pre-call cursor, so the addresses of all subsequent allocations are
shifted by the failed request (second conjunct); `memory_alloc_aligned`
additionally consumes its alignment padding (third conjunct).  On the
growing path a failure consumes *more* than `size`: a growth iteration
whose `paging_map` allocates a page table advances the cursor reentrantly
by the table page, its alignment padding and a 48-byte map node, and a
following iteration that finds the free tree exhausted then fails with all
of it consumed (fourth conjunct). -/
theorem C10_failed_alloc_advances_heap_length
    (size : Nat) (kps : Pageset) (s : HeapSt)
    (hflags : ¬(s.large_enabled = true ∧ s.grow_enabled = true))
    (hcond : s.heap_start + u64add s.heap_length size + memory_bufzone s > s.heap_end) :
    kmemory_alloc size kps s =
      some (none, kps, { s with heap_length := u64add s.heap_length size }) ∧
    (∀ (size2 : Nat) (kps3 : Pageset) (s3 : HeapSt) (p : Option Nat)
        (kps4 : Pageset) (s4 : HeapSt),
      kmemory_alloc size2 kps3 s3 = some (p, kps4, s4) →
      p = none ∨ p = some (s3.heap_start + s3.heap_length)) ∧
    (∀ alignment : Nat,
      s.heap_start + u64add (u64add s.heap_length (kalign_pad s alignment)) size
          + memory_bufzone s > s.heap_end →
      kmemory_alloc_aligned size alignment kps s =
        some (none, kps,
          { s with heap_length :=
              u64add (u64add s.heap_length (kalign_pad s alignment)) size })) ∧
    (∀ (kps2 : Pageset) (s2 : HeapSt) (sz pb : Nat) (fr2 : FRState)
        (t : Nat → PdptEntry) (t2 : Nat → PdEntry) (PB1 pages2 pb2 : Nat)
        (fr3 : FRState),
      s2.large_enabled = true → s2.grow_enabled = true →
      s2.heap_start + u64add s2.heap_length sz + MEMORY_BUFZONE_SIZE > s2.heap_end →
      (u64add s2.heap_length sz + MEMORY_BUFZONE_SIZE - (s2.heap_end - s2.heap_start)) / 4096
        + (if (u64add s2.heap_length sz + MEMORY_BUFZONE_SIZE
               - (s2.heap_end - s2.heap_start)) % 4096 ≠ 0 then 1 else 0) = 1 →
      memory_free_region_acquire s2.fr 1 = some (1, pb, fr2) →
      ¬(s2.heap_start
        + u64add (u64add (u64add s2.heap_length sz) (kgrow_pad s2 sz)) 4096 > s2.heap_end) →
      ¬(s2.heap_start
        + u64add (u64add (u64add (u64add s2.heap_length sz) (kgrow_pad s2 sz)) 4096) 48
          > s2.heap_end) →
      (kps2.pml4 (pml4_index s2.heap_end)).present = true →
      tmGet kps2.table_map (kps2.pml4 (pml4_index s2.heap_end)).pdpt_physical =
        some (.pdpt t) →
      (t (pdpt_index s2.heap_end)).present = true →
      (t (pdpt_index s2.heap_end)).page_size = false →
      tmGet kps2.table_map (t (pdpt_index s2.heap_end)).phys = some (.pd t2) →
      (t2 (pd_index s2.heap_end)).present = false →
      paging_resolve_linear_address kps2 kps2
        (s2.heap_start + u64add (u64add s2.heap_length sz) (kgrow_pad s2 sz)) = some PB1 →
      PB1 / 4096 ≠ (t (pdpt_index s2.heap_end)).phys →
      tmGet kps2.table_map (PB1 / 4096) = none →
      s2.heap_start
          + u64add (u64add (u64add (u64add s2.heap_length sz) (kgrow_pad s2 sz)) 4096) 48
          + MEMORY_BUFZONE_SIZE > s2.heap_end + 4096 →
      (u64add (u64add (u64add (u64add s2.heap_length sz) (kgrow_pad s2 sz)) 4096) 48
            + MEMORY_BUFZONE_SIZE - (s2.heap_end + 4096 - s2.heap_start)) / 4096
        + (if (u64add (u64add (u64add (u64add s2.heap_length sz) (kgrow_pad s2 sz)) 4096) 48
               + MEMORY_BUFZONE_SIZE - (s2.heap_end + 4096 - s2.heap_start)) % 4096 ≠ 0
           then 1 else 0) = pages2 →
      memory_free_region_acquire fr2 pages2 = some (0, pb2, fr3) →
      (kmemory_alloc sz kps2 s2).map
          (fun r => (r.1, r.2.2.heap_length, r.2.2.heap_start, r.2.2.heap_end)) =
        some (none, u64add s2.heap_length (sz + (kgrow_pad s2 sz + (4096 + 48))),
          s2.heap_start, s2.heap_end + 4096)) := by
  refine ⟨kmemory_alloc_noflags size kps s hflags hcond, ?_, ?_, ?_⟩
  · intro size2 kps3 s3 p kps4 s4 h
    unfold kmemory_alloc at h
    rw [Option.map_eq_some'] at h
    obtain ⟨⟨b, rest⟩, hloop, heq⟩ := h
    rw [Prod.mk.injEq] at heq
    cases b
    · exact Or.inl (by simp [← heq.1])
    · refine Or.inr ?_
      have hp := heq.1
      simp only [if_true] at hp
      exact hp.symm
  · intro alignment hcondA
    unfold kmemory_alloc_aligned
    unfold kalign_pad at hcondA ⊢
    dsimp only
    by_cases hmod : (s.heap_start + s.heap_length) % alignment ≠ 0
    · rw [if_pos hmod] at hcondA
      rw [if_pos hmod, if_pos hmod]
      exact kmemory_alloc_noflags size kps _ hflags hcondA
    · rw [if_neg hmod] at hcondA
      rw [if_neg hmod, if_neg hmod]
      rw [u64add_zero_add] at hcondA ⊢
      exact kmemory_alloc_noflags size kps s hflags hcondA
  · intro kps2 s2 sz pb fr2 t t2 PB1 pages2 pb2 fr3 hfl1 hfl2 hc1 hp1 hacq1
      hfit1 hfit2 hpml4 htp hpe hpe2 htd hde hres hne hnotin hc2 hp2 hacq2
    exact kmemory_alloc_grow_oom kps2 s2 sz pb fr2 t t2 PB1 pages2 pb2 fr3
      hfl1 hfl2 hc1 hp1 hacq1 hfit1 hfit2 hpml4 htp hpe hpe2 htd hde hres
      hne hnotin hc2 hp2 hacq2

/-- A 16-byte early heap with the large heap disabled: the "ran out of
initial heap" failure mode. -/
def c10_small_heap : HeapSt :=
  { heap_start := 0, heap_end := 16, heap_length := 0
    large_enabled := false, grow_enabled := false, fr := fr_empty }

/-- Kernel pageset for the growth scenario: the heap pages (0x1fc000 to
0x1fffff) are mapped through PML4[0] → PDPT at frame 500 → PD at frame
501 → PT at frame 502, and the PD entry covering 0x200000 (the heap's end,
the next 2 MiB region) is absent, so mapping the grown page allocates a
fresh PT. -/
def c10_kps : Pageset :=
  { pml4_physical := 0
    pml4 := fun j => if j = 0 then
        { present := true, writable := true, user := true, pdpt_physical := 500 }
      else {}
    table_map :=
      [(500, .pdpt (fun j => if j = 0 then
          { present := true, writable := true, user := true
            page_size := false, phys := 501 }
        else {})),
       (501, .pd (fun j => if j = 0 then
          { present := true, writable := true, user := true
            page_size := false, phys := 502 }
        else {})),
       (502, .pt (fun j => if 508 ≤ j then
          { present := true, writable := true, user := true
            page_physical := 1536 + j }
        else {}))]
    kernel := true }

/-- One free 1-page region at physical 0x800000. -/
def c10_fr : FRState :=
  (memory_free_region_release fr_empty 0x800000 1).getD fr_empty

/-- Growth-scenario heap: the large heap spans exactly one buffer zone,
[0x1fc000, 0x200000), growth enabled, one frame in the free tree. -/
def c10_heap : HeapSt :=
  { heap_start := 0x1fc000, heap_end := 0x200000, heap_length := 0
    large_enabled := true, grow_enabled := true, fr := c10_fr }

/-- The original claim's exact-advance reading is false on the growth path:
this failing 100-byte allocation leaves `memory_heap_length` at 8240 — the
request plus 3996 bytes of alignment padding, a 4096-byte page table and a
48-byte map node consumed reentrantly by `paging_map` — and not
`u64add 0 100 = 100`. -/
theorem C10_counterexample :
    (kmemory_alloc 100 c10_kps c10_heap).map (fun r => (r.1, r.2.2.heap_length)) =
        some (none, 8240) ∧
      ¬((8240 : Nat) = u64add c10_heap.heap_length 100) := by
  constructor
  · decide
  · decide

theorem C10_witness :
    kmemory_alloc 32 c6_kps c10_small_heap =
        some (none, c6_kps, { c10_small_heap with heap_length := u64add 0 32 }) ∧
      (kmemory_alloc 100 c10_kps c10_heap).map
          (fun r => (r.1, r.2.2.heap_length, r.2.2.heap_start, r.2.2.heap_end)) =
        some (none,
          u64add c10_heap.heap_length (100 + (kgrow_pad c10_heap 100 + (4096 + 48))),
          c10_heap.heap_start, c10_heap.heap_end + 4096) := by
  obtain ⟨⟨g1, pb1, fr2⟩, hr1, hp1⟩ := Option.map_eq_some'.mp
    (show (memory_free_region_acquire c10_fr 1).map
        (fun r => (r.1, r.2.1, r.2.2.rb.root)) = some (1, 0x800000, none) from by decide)
  dsimp only at hp1
  rw [Prod.mk.injEq, Prod.mk.injEq] at hp1
  obtain ⟨hg1, hpb1, hroot⟩ := hp1
  subst hg1
  subst hpb1
  have hacq2 : memory_free_region_acquire fr2 2 = some (0, 0, fr2) := by
    unfold memory_free_region_acquire
    rw [hroot]
  have h := C10_failed_alloc_advances_heap_length 32 c6_kps c10_small_heap
    (by decide) (by decide)
  refine ⟨h.1, ?_⟩
  exact h.2.2.2 c10_kps c10_heap 100 0x800000 fr2 _ _ 8376320 2 0 fr2
    rfl rfl (by decide) (by decide) hr1 (by decide) (by decide)
    rfl rfl rfl rfl rfl rfl (by decide) (by decide) rfl (by decide) (by decide) hacq2

end Kit
